import Mathlib

set_option linter.unusedVariables false

/-!
Verification of the tokenized smart-contract daemon (amasser/smart-contract)
against its natural-language specification.

The Go source is shallowly embedded: pure functions become Lean functions,
handler bodies become pure decision pipelines over explicitly passed state
(database lookups, clock readings and external-library checks become
parameters), machine integers become Nat with explicit reductions where the
code can overflow, and fallible Go code returns Option or Except.

Conventions used throughout:
* byte strings are List Nat with values < 256 where it matters;
* addresses that the handlers only ever compare for equality are Nat;
* a Go nil pointer or empty value is Option.none;
* a Go function returning (value, error) is Option or Except.
-/

namespace SmartContract

/-! ## Inspector: request/response classification
Embedded from the inspector package (src/unnamed/part_003). -/

/-- Action codes of the tokenized protocol, one constructor per 3-character
protocol code referenced by the inspector's classification tables and by the
specification's request/response sets. -/
inductive ActionCode
  | contractOffer
  | contractAmendment
  | assetDefinition
  | assetModification
  | transfer
  | proposal
  | ballotCast
  | order
  | message
  | addressChange
  | contractFormation
  | assetCreation
  | settlement
  | vote
  | ballotCounted
  | result
  | freeze
  | thaw
  | confiscation
  | reconciliation
  | rejection
  deriving DecidableEq, Repr

/-- Membership function of the incomingMessageTypes map (part_003 lines
16-27): the action codes the inspector classifies as requests. -/
def incomingMessageTypes (c : ActionCode) : Bool :=
  match c with
  | .contractOffer => true
  | .contractAmendment => true
  | .assetDefinition => true
  | .assetModification => true
  | .transfer => true
  | .proposal => true
  | .ballotCast => true
  | .order => true
  | _ => false

/-- Membership function of the outgoingMessageTypes map (part_003 lines
29-42): the action codes the inspector classifies as responses. -/
def outgoingMessageTypes (c : ActionCode) : Bool :=
  match c with
  | .assetCreation => true
  | .contractFormation => true
  | .settlement => true
  | .vote => true
  | .ballotCounted => true
  | .result => true
  | .freeze => true
  | .thaw => true
  | .confiscation => true
  | .reconciliation => true
  | .rejection => true
  | _ => false

/-- Request set as written in the specification (section 4.2 Classification),
for comparison against the inspector's tables: ContractOffer,
ContractAmendment, AssetDefinition, AssetModification, Transfer, Proposal,
BallotCast, Order, Message, AddressChange. -/
def specRequestSet (c : ActionCode) : Bool :=
  match c with
  | .contractOffer => true
  | .contractAmendment => true
  | .assetDefinition => true
  | .assetModification => true
  | .transfer => true
  | .proposal => true
  | .ballotCast => true
  | .order => true
  | .message => true
  | .addressChange => true
  | _ => false

/-- Response set as written in the specification (section 4.2 Classification):
ContractFormation, AssetCreation, Settlement, Vote, BallotCounted, Result,
Freeze, Thaw, Confiscation, Reconciliation, Rejection, Message. -/
def specResponseSet (c : ActionCode) : Bool :=
  match c with
  | .contractFormation => true
  | .assetCreation => true
  | .settlement => true
  | .vote => true
  | .ballotCounted => true
  | .result => true
  | .freeze => true
  | .thaw => true
  | .confiscation => true
  | .reconciliation => true
  | .rejection => true
  | .message => true
  | _ => false

deriving instance Fintype for ActionCode

/-- Inspector transaction (part_003 Transaction), restricted to the fields the
classification functions read: the extracted tokenized message, if any.
MsgProto is nil in Go exactly when no output deserialized as a protocol
message; only the action code of the message matters to classification. -/
structure InspectorTransaction where
  msgProto : Option ActionCode
  deriving DecidableEq, Repr

/-- IsTokenized (part_003 lines 219-221): the transaction carries a protocol
message. -/
def InspectorTransaction.IsTokenized (itx : InspectorTransaction) : Bool :=
  itx.msgProto.isSome

/-- IsIncomingMessageType (part_003 lines 225-232). -/
def InspectorTransaction.IsIncomingMessageType (itx : InspectorTransaction) : Bool :=
  if !itx.IsTokenized then false
  else
    match itx.msgProto with
    | some c => incomingMessageTypes c
    | none => false

/-- IsOutgoingMessageType (part_003 lines 236-243). -/
def InspectorTransaction.IsOutgoingMessageType (itx : InspectorTransaction) : Bool :=
  if !itx.IsTokenized then false
  else
    match itx.msgProto with
    | some c => outgoingMessageTypes c
    | none => false

/-! ## Contract state and contract.Update
Embedded from src/internal/contract/contract.go. The state.Contract record is
not itself under src/; its field set is taken from the fields contract.Create,
contract.Update and contract.AddAssetCode read and write. Field types carry no
weight for the frame property: scalar fields are Nat, flags Bool, lists of
protocol records are lists of opaque Nat payloads, and Go nil-able pointers
are Option. Go's identification of a nil slice with an empty slice collapses
the normalization branches of Update into the identity. -/

/-- Durable contract state, as read and written by internal/contract. The
MovedTo and MasterAddress fields are present on the stored contract (the
handlers read them) but are not updatable through UpdateContract. -/
structure StateContract where
  ID : Nat := 0
  Revision : Nat := 0
  Timestamp : Nat := 0
  IssuerPKH : Nat := 0
  OperatorPKH : Nat := 0
  ContractName : Nat := 0
  ContractType : Nat := 0
  BodyOfAgreementType : Nat := 0
  BodyOfAgreement : List Nat := []
  SupportingDocsFileType : Nat := 0
  SupportingDocs : List Nat := []
  GoverningLaw : Nat := 0
  Jurisdiction : Nat := 0
  ContractExpiration : Nat := 0
  ContractURI : Nat := 0
  Issuer : Nat := 0
  IssuerLogoURL : Nat := 0
  ContractOperator : Nat := 0
  ContractAuthFlags : List Nat := []
  ContractFee : Nat := 0
  VotingSystems : List Nat := []
  RestrictedQtyAssets : Nat := 0
  IssuerProposal : Bool := false
  HolderProposal : Bool := false
  Oracles : List Nat := []
  FreezePeriod : Nat := 0
  AssetCodes : List Nat := []
  CreatedAt : Nat := 0
  UpdatedAt : Nat := 0
  MovedTo : Option Nat := none
  MasterAddress : Option Nat := none
  deriving DecidableEq, Repr

/-- UpdateContract: one optional (pointer) field per updatable contract field,
as consumed by contract.Update (contract.go lines 85-167). -/
structure UpdateContract where
  Revision : Option Nat := none
  Timestamp : Option Nat := none
  IssuerPKH : Option Nat := none
  OperatorPKH : Option Nat := none
  ContractName : Option Nat := none
  ContractType : Option Nat := none
  BodyOfAgreementType : Option Nat := none
  BodyOfAgreement : Option (List Nat) := none
  SupportingDocsFileType : Option Nat := none
  SupportingDocs : Option (List Nat) := none
  GoverningLaw : Option Nat := none
  Jurisdiction : Option Nat := none
  ContractExpiration : Option Nat := none
  ContractURI : Option Nat := none
  Issuer : Option Nat := none
  IssuerLogoURL : Option Nat := none
  ContractOperator : Option Nat := none
  ContractAuthFlags : Option (List Nat) := none
  ContractFee : Option Nat := none
  VotingSystems : Option (List Nat) := none
  RestrictedQtyAssets : Option Nat := none
  IssuerProposal : Option Bool := none
  HolderProposal : Option Bool := none
  Oracles : Option (List Nat) := none
  FreezePeriod : Option Nat := none
  deriving Repr

/-- contract.Update (contract.go lines 74-172), applied to the contract
fetched from storage: each non-nil update pointer overwrites the matching
field, and UpdatedAt is set to the passed timestamp. The Go body performs the
assignments in sequence; since every assignment targets a distinct field, the
sequence is the simultaneous update written here. Persistence (Fetch and Save)
is factored out: the function maps the fetched record to the record handed to
Save. -/
def contractUpdate (c : StateContract) (upd : UpdateContract) (now : Nat) :
    StateContract :=
  { c with
    Revision := upd.Revision.getD c.Revision
    Timestamp := upd.Timestamp.getD c.Timestamp
    IssuerPKH := upd.IssuerPKH.getD c.IssuerPKH
    OperatorPKH := upd.OperatorPKH.getD c.OperatorPKH
    ContractName := upd.ContractName.getD c.ContractName
    ContractType := upd.ContractType.getD c.ContractType
    BodyOfAgreementType := upd.BodyOfAgreementType.getD c.BodyOfAgreementType
    BodyOfAgreement := upd.BodyOfAgreement.getD c.BodyOfAgreement
    SupportingDocsFileType := upd.SupportingDocsFileType.getD c.SupportingDocsFileType
    SupportingDocs := upd.SupportingDocs.getD c.SupportingDocs
    GoverningLaw := upd.GoverningLaw.getD c.GoverningLaw
    Jurisdiction := upd.Jurisdiction.getD c.Jurisdiction
    ContractExpiration := upd.ContractExpiration.getD c.ContractExpiration
    ContractURI := upd.ContractURI.getD c.ContractURI
    Issuer := upd.Issuer.getD c.Issuer
    IssuerLogoURL := upd.IssuerLogoURL.getD c.IssuerLogoURL
    ContractOperator := upd.ContractOperator.getD c.ContractOperator
    ContractAuthFlags := upd.ContractAuthFlags.getD c.ContractAuthFlags
    ContractFee := upd.ContractFee.getD c.ContractFee
    VotingSystems := upd.VotingSystems.getD c.VotingSystems
    RestrictedQtyAssets := upd.RestrictedQtyAssets.getD c.RestrictedQtyAssets
    IssuerProposal := upd.IssuerProposal.getD c.IssuerProposal
    HolderProposal := upd.HolderProposal.getD c.HolderProposal
    Oracles := upd.Oracles.getD c.Oracles
    FreezePeriod := upd.FreezePeriod.getD c.FreezePeriod
    UpdatedAt := now }

/-- CanHaveMoreAssets (contract.go lines 200-211): a zero asset-count limit
means unlimited assets, otherwise another asset may be added while the current
count is below the limit. -/
def CanHaveMoreAssets (ct : StateContract) : Bool :=
  if ct.RestrictedQtyAssets = 0 then true
  else ct.AssetCodes.length < ct.RestrictedQtyAssets

/-- IsOperator (contract.go lines 268-270): the given party is the contract's
issuer or operator. -/
def IsOperator (ct : StateContract) (pkh : Nat) : Bool :=
  ct.IssuerPKH = pkh || ct.OperatorPKH = pkh

/-! ## Bitcoin addresses: encode and decode
Embedded from the bitcoin package (src/unnamed/part_001). Byte strings are
List Nat. Base58 and DoubleSha256 live in the external library layer the
specification lists as a collaborator; the codec here is parameterized over
them, and theorems hold for any implementations with the stated properties. -/

/-- Length in bytes of a public key hash, script hash or R-puzzle hash. -/
def scriptHashLength : Nat := 20

/-- Address decoding errors (part_001 lines 10-15). -/
inductive AddrError
  | badScriptHashLength
  | badCheckSum
  | badType
  | readError
  deriving DecidableEq, Repr

/-- Network identifier for an address. All non-main networks encode with the
test type bytes. -/
inductive Network
  | mainNet
  | testNet
  deriving DecidableEq, Repr

/-- Address type bytes (part_001 lines 17-27). -/
def addressTypeMainPKH : Nat := 0x00
def addressTypeMainSH : Nat := 0x05
def addressTypeMainMultiPKH : Nat := 0x10
def addressTypeMainRPH : Nat := 0x20
def addressTypeTestPKH : Nat := 0x6f
def addressTypeTestSH : Nat := 0xc4
def addressTypeTestMultiPKH : Nat := 0xd0
def addressTypeTestRPH : Nat := 0xe0

/-- Address over a public key hash (AddressPKH). -/
structure AddressPKH where
  pkh : List Nat
  net : Network
  deriving DecidableEq, Repr

/-- Address over a script hash (AddressSH). -/
structure AddressSH where
  sh : List Nat
  net : Network
  deriving DecidableEq, Repr

/-- Experimental multi-party address (AddressMultiPKH): a required-signature
count and a list of public key hashes. -/
structure AddressMultiPKH where
  required : Nat
  pkhs : List (List Nat)
  net : Network
  deriving DecidableEq, Repr

/-- Address over an R-puzzle hash (AddressRPH). -/
structure AddressRPH where
  rph : List Nat
  net : Network
  deriving DecidableEq, Repr

/-- The closed sum of address variants behind the Address interface. -/
inductive Address
  | pkh (a : AddressPKH)
  | sh (a : AddressSH)
  | multiPKH (a : AddressMultiPKH)
  | rph (a : AddressRPH)
  deriving DecidableEq, Repr

/-- NewAddressPKH via NewRawAddressPKH: the hash must have the script hash
length (the constructor validates it; part_001 lines 228-234). -/
def NewAddressPKH (pkh : List Nat) (net : Network) : Except AddrError Address :=
  if pkh.length = scriptHashLength then .ok (.pkh ⟨pkh, net⟩)
  else .error .badScriptHashLength

/-- NewAddressSH via NewRawAddressSH (part_001 lines 267-273). -/
def NewAddressSH (sh : List Nat) (net : Network) : Except AddrError Address :=
  if sh.length = scriptHashLength then .ok (.sh ⟨sh, net⟩)
  else .error .badScriptHashLength

/-- NewAddressMultiPKH via NewRawAddressMultiPKH (part_001 lines 306-312):
every listed hash must have the script hash length. -/
def NewAddressMultiPKH (required : Nat) (pkhs : List (List Nat)) (net : Network) :
    Except AddrError Address :=
  if pkhs.all fun p => p.length = scriptHashLength then
    .ok (.multiPKH ⟨required, pkhs, net⟩)
  else .error .badScriptHashLength

/-- NewAddressRPH via NewRawAddressRPH (part_001 lines 359-365). -/
def NewAddressRPH (rph : List Nat) (net : Network) : Except AddrError Address :=
  if rph.length = scriptHashLength then .ok (.rph ⟨rph, net⟩)
  else .error .badScriptHashLength

/-- Two-byte little-endian encoding of the multi-PKH required count (the
binary.Write call in AddressMultiPKH.bytes). -/
def u16le (v : Nat) : List Nat := [v % 256, v / 256 % 256]

/-- AddressPKH.bytes (part_001 lines 242-253): type byte then the hash. -/
def AddressPKH.bytes (a : AddressPKH) : List Nat :=
  (match a.net with
   | .mainNet => addressTypeMainPKH
   | _ => addressTypeTestPKH) :: a.pkh

/-- AddressSH.bytes (part_001 lines 281-292). -/
def AddressSH.bytes (a : AddressSH) : List Nat :=
  (match a.net with
   | .mainNet => addressTypeMainSH
   | _ => addressTypeTestSH) :: a.sh

/-- AddressMultiPKH.bytes (part_001 lines 320-345): type byte, two-byte
little-endian required count, then the concatenated hashes. -/
def AddressMultiPKH.bytes (a : AddressMultiPKH) : List Nat :=
  (match a.net with
   | .mainNet => addressTypeMainMultiPKH
   | _ => addressTypeTestMultiPKH) :: (u16le a.required ++ a.pkhs.flatten)

/-- AddressRPH.bytes (part_001 lines 373-383). -/
def AddressRPH.bytes (a : AddressRPH) : List Nat :=
  (match a.net with
   | .mainNet => addressTypeMainRPH
   | _ => addressTypeTestRPH) :: a.rph

/-- Address.bytes: dispatch over the variants. -/
def Address.bytes : Address → List Nat
  | .pkh a => a.bytes
  | .sh a => a.bytes
  | .multiPKH a => a.bytes
  | .rph a => a.bytes

/-- The hash-collection loop of the multi-PKH branch of decodeAddressBytes
(part_001 lines 73-80): the source loop condition is len(b) >= 0, and each
pass demands at least scriptHashLength remaining bytes, returning
ErrBadScriptHashLength otherwise, so the loop exits only through that error
return. Embedded as recursion on the remaining bytes with the same guard. -/
def parseMultiPKHHashes (acc : List (List Nat)) (b : List Nat) :
    Except AddrError (List (List Nat)) :=
  if b.length < scriptHashLength then .error .badScriptHashLength
  else parseMultiPKHHashes (acc ++ [b.take scriptHashLength]) (b.drop scriptHashLength)
termination_by b.length
decreasing_by
  simp only [List.length_drop, scriptHashLength] at *
  omega

/-- decodeAddressBytes (part_001 lines 55-111): dispatch on the leading type
byte; for multi-PKH, read the two-byte required count and then run the hash
collection loop. -/
def decodeAddressBytes (b : List Nat) : Except AddrError Address :=
  if b.length < 2 then .error .badType
  else
    match b with
    | [] => .error .badType
    | t :: rest =>
      if t = addressTypeMainPKH then NewAddressPKH rest .mainNet
      else if t = addressTypeMainSH then NewAddressSH rest .mainNet
      else if t = addressTypeMainMultiPKH then
        match rest with
        | r0 :: r1 :: rest2 =>
          let required := r0 + 256 * r1
          match parseMultiPKHHashes [] rest2 with
          | .error e => .error e
          | .ok pkhs => NewAddressMultiPKH required pkhs .mainNet
        | _ => .error .readError
      else if t = addressTypeMainRPH then NewAddressRPH rest .mainNet
      else if t = addressTypeTestPKH then NewAddressPKH rest .testNet
      else if t = addressTypeTestSH then NewAddressSH rest .testNet
      else if t = addressTypeTestMultiPKH then
        match rest with
        | r0 :: r1 :: rest2 =>
          let required := r0 + 256 * r1
          match parseMultiPKHHashes [] rest2 with
          | .error e => .error e
          | .ok pkhs => NewAddressMultiPKH required pkhs .testNet
        | _ => .error .readError
      else if t = addressTypeTestRPH then NewAddressRPH rest .testNet
      else .error .badType

/-- encodeAddress (part_001 lines 503-514): append the first four bytes of the
double SHA-256 checksum, then Base58-encode. Base58 and DoubleSha256 are the
external library collaborators, passed as functions. -/
def encodeAddress (base58 : List Nat → String) (doubleSha256 : List Nat → List Nat)
    (b : List Nat) : String :=
  base58 (b ++ (doubleSha256 b).take 4)

/-- decodeAddress (part_001 lines 516-530): Base58-decode, verify and strip
the four checksum bytes. -/
def decodeAddress (base58Decode : String → List Nat)
    (doubleSha256 : List Nat → List Nat) (address : String) :
    Except AddrError (List Nat) :=
  let b := base58Decode address
  if b.length < 5 then .error .badCheckSum
  else
    let payload := b.take (b.length - 4)
    if (doubleSha256 payload).take 4 = b.drop (b.length - 4) then .ok payload
    else .error .badCheckSum

/-- DecodeAddress (part_001 lines 44-51): decode the Base58 text, then the
address bytes. -/
def DecodeAddress (base58Decode : String → List Nat)
    (doubleSha256 : List Nat → List Nat) (address : String) :
    Except AddrError Address :=
  match decodeAddress base58Decode doubleSha256 address with
  | .error e => .error e
  | .ok b => decodeAddressBytes b

/-- Address.String: encode the address bytes with checksum and Base58
(part_001 lines 237-239 and peers). -/
def Address.toBase58 (base58 : List Nat → String)
    (doubleSha256 : List Nat → List Nat) (a : Address) : String :=
  encodeAddress base58 doubleSha256 a.bytes

/-! ## BIP143 signature hash
Embedded from src/pkg/txbuilder/sig_hash.go. The wire transaction types are
embedded structurally; DoubleSha256, the wire output serializer and the
var-bytes writer are external library collaborators passed as functions. List
indexing in the Go source that would panic out of range is modelled with
optional access whose none case propagates to a none result. -/

/-- Transaction outpoint: previous transaction hash and output index. -/
structure OutPoint where
  hash : List Nat
  index : Nat
  deriving DecidableEq, Repr

/-- Transaction input: outpoint being spent and sequence number. -/
structure TxIn where
  previousOutPoint : OutPoint
  sequence : Nat
  deriving DecidableEq, Repr

/-- Transaction output: value and locking script. -/
structure TxOut where
  value : Nat
  pkScript : List Nat
  deriving DecidableEq, Repr

/-- Wire transaction, the fields signatureHash reads. -/
structure MsgTx where
  version : Nat
  txIn : List TxIn
  txOut : List TxOut
  lockTime : Nat
  deriving DecidableEq, Repr

/-- Signature hash type constants (sig_hash.go lines 15-26). -/
def SigHashOld : Nat := 0x0
def SigHashAll : Nat := 0x1
def SigHashNone : Nat := 0x2
def SigHashSingle : Nat := 0x3
def SigHashAnyOneCanPay : Nat := 0x80
def SigHashForkID : Nat := 0x40
def sigHashMask : Nat := 0x1f

/-- Little-endian four-byte encoding (the binary.LittleEndian.PutUint32
calls). -/
def u32le (v : Nat) : List Nat :=
  [v % 256, v / 256 % 256, v / 256 ^ 2 % 256, v / 256 ^ 3 % 256]

/-- Little-endian eight-byte encoding (binary.LittleEndian.PutUint64). -/
def u64le (v : Nat) : List Nat :=
  [v % 256, v / 256 % 256, v / 256 ^ 2 % 256, v / 256 ^ 3 % 256,
   v / 256 ^ 4 % 256, v / 256 ^ 5 % 256, v / 256 ^ 6 % 256, v / 256 ^ 7 % 256]

/-- HashPrevOuts (sig_hash.go lines 48-66) without the memo slot: the hash of
all previous outpoints. The cache only memoizes this value. -/
def HashPrevOuts (dsha : List Nat → List Nat) (tx : MsgTx) : List Nat :=
  dsha ((tx.txIn.map fun txin =>
    txin.previousOutPoint.hash ++ u32le txin.previousOutPoint.index).flatten)

/-- HashSequence (sig_hash.go lines 70-84) without the memo slot. -/
def HashSequence (dsha : List Nat → List Nat) (tx : MsgTx) : List Nat :=
  dsha ((tx.txIn.map fun txin => u32le txin.sequence).flatten)

/-- HashOutputs (sig_hash.go lines 88-100) without the memo slot; the wire
output serializer is the external collaborator serTxOut. -/
def HashOutputs (dsha : List Nat → List Nat) (serTxOut : TxOut → List Nat)
    (tx : MsgTx) : List Nat :=
  dsha ((tx.txOut.map serTxOut).flatten)

/-- The 32-byte zero hash written by the skipped branches. -/
def zeroHash32 : List Nat := List.replicate 32 0

/-- The outputs component of the BIP143 pre-image (sig_hash.go lines
168-179): the full outputs hash for modes covering all outputs, the single
matching output's hash under the SigHashSingle branch, whose access to
tx.TxOut is guarded by index < len(tx.TxOut), and the zero hash otherwise.
A none result marks an out-of-range access. -/
def sigHashOutputsComponent (dsha : List Nat → List Nat)
    (serTxOut : TxOut → List Nat) (tx : MsgTx) (index : Nat) (hashType : Nat) :
    Option (List Nat) :=
  if hashType &&& SigHashSingle ≠ SigHashSingle ∧
      hashType &&& SigHashNone ≠ SigHashNone then
    some (HashOutputs dsha serTxOut tx)
  else if hashType &&& sigHashMask = SigHashSingle ∧ index < tx.txOut.length then
    match tx.txOut.get? index with
    | none => none
    | some out => some (dsha (serTxOut out))
  else some zeroHash32

/-- signatureHash (sig_hash.go lines 112-190): the BIP143 digest pre-image
assembly. Returns none where the Go function returns nil (index out of range
sanity check) and where a Go slice access would panic. The index comparison
index > len(tx.TxIn)-1 is over Go ints, which for natural index and length is
index >= len(tx.TxIn). -/
def signatureHash (dsha : List Nat → List Nat) (serTxOut : TxOut → List Nat)
    (writeVarBytes : List Nat → List Nat) (tx : MsgTx) (index : Nat)
    (lockScript : List Nat) (value : Nat) (hashType : Nat) :
    Option (List Nat) :=
  if tx.txIn.length ≤ index then none
  else
    match tx.txIn.get? index with
    | none => none
    | some txin =>
      let part1 := u32le tx.version
      let part2 :=
        if hashType &&& SigHashAnyOneCanPay = 0 then HashPrevOuts dsha tx
        else zeroHash32
      let part3 :=
        if hashType &&& SigHashAnyOneCanPay = 0 ∧
            hashType &&& sigHashMask ≠ SigHashSingle ∧
            hashType &&& sigHashMask ≠ SigHashNone then
          HashSequence dsha tx
        else zeroHash32
      let part4 := txin.previousOutPoint.hash ++ u32le txin.previousOutPoint.index
      let part5 := writeVarBytes lockScript
      let part6 := u64le value ++ u32le txin.sequence
      match sigHashOutputsComponent dsha serTxOut tx index hashType with
      | none => none
      | some p7 =>
        let part8 := u32le tx.lockTime ++ u32le (hashType ||| SigHashForkID)
        some (dsha (part1 ++ part2 ++ part3 ++ part4 ++ part5 ++ part6 ++ p7 ++ part8))

/-! ## Wire codec primitives
The asset payload types and their serialize and write methods are embedded
from src/pkg/protocol/assets.go. The primitives they call (write, read,
readLen, pad, WriteVarChar, ReadVarChar, WriteFixedChar, ReadFixedChar) are
this repository's protocol package code that is not under src/; they are
modelled from the specification (section 4.1): fixed-width unsigned integers
little-endian, fixed-length strings right-padded with NUL, variable strings
prefixed with a length whose width is the smallest of uint8, uint16, uint32
that holds the field's declared maximum. -/

/-- Little-endian byte encoding of a value at the given width, low byte
first. -/
def leBytes : Nat → Nat → List Nat
  | 0, _ => []
  | w + 1, v => v % 256 :: leBytes w (v / 256)

/-- Value of a little-endian byte string. -/
def leVal : List Nat → Nat
  | [] => 0
  | b :: r => b + 256 * leVal r

/-- Modelled from the spec: the one-byte write of the binary.Write primitive
for uint8 fields. -/
def writeU8 (v : Nat) : List Nat := [v % 256]

/-- Modelled from the spec: the eight-byte little-endian write of the
binary.Write primitive for uint64 fields. -/
def writeU64 (v : Nat) : List Nat := leBytes 8 v

/-- Modelled from the spec: consume exactly n bytes of the stream (the
readLen primitive); fails when fewer remain. -/
def readBytesP (n : Nat) (l : List Nat) : Option (List Nat × List Nat) :=
  if l.length < n then none else some (l.take n, l.drop n)

/-- Modelled from the spec: read a little-endian unsigned integer of the
given byte width. -/
def readUIntLE (w : Nat) (l : List Nat) : Option (Nat × List Nat) :=
  (readBytesP w l).map fun p => (leVal p.1, p.2)

/-- Modelled from the spec: the pad primitive right-pads a byte string with
NUL bytes up to the target length. -/
def padBytes (b : List Nat) (n : Nat) : List Nat :=
  b ++ List.replicate (n - b.length) 0

/-- Modelled from the spec: the width of a variable-length prefix is the
smallest of uint8, uint16, uint32 that holds the field's declared maximum. -/
def varLenWidth (maxLen : Nat) : Nat :=
  if maxLen < 256 then 1 else if maxLen < 65536 then 2 else 4

/-- Modelled from the spec: WriteVarChar writes the length at the prefix
width given by the declared maximum, then the bytes; over-long values are an
error. -/
def WriteVarChar (s : List Nat) (maxLen : Nat) : Option (List Nat) :=
  if maxLen < s.length then none
  else some (leBytes (varLenWidth maxLen) s.length ++ s)

/-- Modelled from the spec: ReadVarChar reads the length prefix then that
many bytes. -/
def ReadVarChar (maxLen : Nat) (l : List Nat) : Option (List Nat × List Nat) :=
  match readUIntLE (varLenWidth maxLen) l with
  | none => none
  | some (n, r) => readBytesP n r

/-- Modelled from the spec: WriteFixedChar writes the string right-padded
with NUL to the fixed width; over-long values are an error. -/
def WriteFixedChar (s : List Nat) (n : Nat) : Option (List Nat) :=
  if n < s.length then none
  else some (s ++ List.replicate (n - s.length) 0)

/-- Modelled from the spec: ReadFixedChar consumes the fixed width of bytes
as the string. -/
def ReadFixedChar (n : Nat) (l : List Nat) : Option (List Nat × List Nat) :=
  readBytesP n l

/-- Modelled from the spec: read of a uint8 field. -/
def readU8 (l : List Nat) : Option (Nat × List Nat) :=
  match l with
  | [] => none
  | b :: r => some (b, r)

/-- Modelled from the spec: read of a uint64 little-endian field. -/
def readU64 (l : List Nat) : Option (Nat × List Nat) :=
  readUIntLE 8 l

/-! ## Asset payload types
Embedded from src/pkg/protocol/assets.go. Go strings are byte strings here
(List Nat); the serialize and write methods mirror the field order of the
source. Serialization failure (an over-long field) is Option.none. -/

/-- Coupon asset payload (assets.go lines 33-42). -/
structure Coupon where
  Version : Nat
  TradingRestriction : List Nat
  RedeemingEntity : List Nat
  IssueDate : Nat
  ExpiryDate : Nat
  Value : Nat
  Currency : List Nat
  Description : List Nat
  deriving DecidableEq, Repr

/-- Coupon.serialize (assets.go lines 69-112). -/
def Coupon.serialize (m : Coupon) : Option (List Nat) := do
  let b3 ← WriteVarChar m.RedeemingEntity 255
  let b7 ← WriteFixedChar m.Currency 3
  let b8 ← WriteVarChar m.Description 16
  pure (writeU8 m.Version ++ padBytes m.TradingRestriction 5 ++ b3 ++
    writeU64 m.IssueDate ++ writeU64 m.ExpiryDate ++ writeU64 m.Value ++ b7 ++ b8)

/-- Coupon.write (assets.go lines 115-171): the decoder, reading the fields
back in order. -/
def Coupon.write (b : List Nat) : Option Coupon := do
  let (v, r) ← readU8 b
  let (tr, r) ← readBytesP 5 r
  let (re, r) ← ReadVarChar 255 r
  let (idate, r) ← readU64 r
  let (edate, r) ← readU64 r
  let (val, r) ← readU64 r
  let (cur, r) ← ReadFixedChar 3 r
  let (dsc, _) ← ReadVarChar 16 r
  pure ⟨v, tr, re, idate, edate, val, cur, dsc⟩

/-- Currency asset payload (assets.go lines 189-195). -/
structure CurrencyAsset where
  Version : Nat
  TradingRestriction : List Nat
  ISOCode : List Nat
  MonetaryAuthority : List Nat
  Description : List Nat
  deriving DecidableEq, Repr

/-- Currency.serialize (assets.go lines 222-250). -/
def CurrencyAsset.serialize (m : CurrencyAsset) : Option (List Nat) := do
  let b3 ← WriteFixedChar m.ISOCode 3
  let b4 ← WriteVarChar m.MonetaryAuthority 255
  let b5 ← WriteVarChar m.Description 255
  pure (writeU8 m.Version ++ padBytes m.TradingRestriction 5 ++ b3 ++ b4 ++ b5)

/-- Currency.write (assets.go lines 253-294). -/
def CurrencyAsset.write (b : List Nat) : Option CurrencyAsset := do
  let (v, r) ← readU8 b
  let (tr, r) ← readBytesP 5 r
  let (iso, r) ← ReadFixedChar 3 r
  let (ma, r) ← ReadVarChar 255 r
  let (dsc, _) ← ReadVarChar 255 r
  pure ⟨v, tr, iso, ma, dsc⟩

/-- LoyaltyPoints asset payload (assets.go lines 309-318). -/
structure LoyaltyPoints where
  Version : Nat
  TradingRestriction : List Nat
  AgeRestriction : List Nat
  OfferType : Nat
  OfferName : List Nat
  ValidFrom : Nat
  ExpirationTimestamp : Nat
  Description : List Nat
  deriving DecidableEq, Repr

/-- LoyaltyPoints.serialize (assets.go lines 345-388). -/
def LoyaltyPoints.serialize (m : LoyaltyPoints) : Option (List Nat) := do
  let b5 ← WriteVarChar m.OfferName 255
  let b8 ← WriteVarChar m.Description 16
  pure (writeU8 m.Version ++ padBytes m.TradingRestriction 5 ++
    padBytes m.AgeRestriction 5 ++ writeU8 m.OfferType ++ b5 ++
    writeU64 m.ValidFrom ++ writeU64 m.ExpirationTimestamp ++ b8)

/-- LoyaltyPoints.write (assets.go lines 391-444). -/
def LoyaltyPoints.write (b : List Nat) : Option LoyaltyPoints := do
  let (v, r) ← readU8 b
  let (tr, r) ← readBytesP 5 r
  let (ar, r) ← readBytesP 5 r
  let (ot, r) ← readU8 r
  let (onm, r) ← ReadVarChar 255 r
  let (vf, r) ← readU64 r
  let (et, r) ← readU64 r
  let (dsc, _) ← ReadVarChar 16 r
  pure ⟨v, tr, ar, ot, onm, vf, et, dsc⟩

/-- Membership asset payload (assets.go lines 462-471). -/
structure MembershipAsset where
  Version : Nat
  TradingRestriction : List Nat
  AgeRestriction : List Nat
  ValidFrom : Nat
  ExpirationTimestamp : Nat
  ID : List Nat
  MembershipType : List Nat
  Description : List Nat
  deriving DecidableEq, Repr

/-- Membership.serialize (assets.go lines 498-541). -/
def MembershipAsset.serialize (m : MembershipAsset) : Option (List Nat) := do
  let b6 ← WriteVarChar m.ID 255
  let b7 ← WriteVarChar m.MembershipType 255
  let b8 ← WriteVarChar m.Description 16
  pure (writeU8 m.Version ++ padBytes m.TradingRestriction 5 ++
    padBytes m.AgeRestriction 5 ++ writeU64 m.ValidFrom ++
    writeU64 m.ExpirationTimestamp ++ b6 ++ b7 ++ b8)

/-- Membership.write (assets.go lines 544-601). -/
def MembershipAsset.write (b : List Nat) : Option MembershipAsset := do
  let (v, r) ← readU8 b
  let (tr, r) ← readBytesP 5 r
  let (ar, r) ← readBytesP 5 r
  let (vf, r) ← readU64 r
  let (et, r) ← readU64 r
  let (idv, r) ← ReadVarChar 255 r
  let (mt, r) ← ReadVarChar 255 r
  let (dsc, _) ← ReadVarChar 16 r
  pure ⟨v, tr, ar, vf, et, idv, mt, dsc⟩

/-- ShareCommon asset payload (assets.go lines 619-626). -/
structure ShareCommon where
  Version : Nat
  TradingRestriction : List Nat
  TransferLockout : Nat
  Ticker : List Nat
  ISIN : List Nat
  Description : List Nat
  deriving DecidableEq, Repr

/-- ShareCommon.serialize (assets.go lines 653-686). -/
def ShareCommon.serialize (m : ShareCommon) : Option (List Nat) := do
  let b4 ← WriteFixedChar m.Ticker 5
  let b5 ← WriteFixedChar m.ISIN 12
  let b6 ← WriteVarChar m.Description 113
  pure (writeU8 m.Version ++ padBytes m.TradingRestriction 5 ++
    writeU64 m.TransferLockout ++ b4 ++ b5 ++ b6)

/-- ShareCommon.write (assets.go lines 689-735). -/
def ShareCommon.write (b : List Nat) : Option ShareCommon := do
  let (v, r) ← readU8 b
  let (tr, r) ← readBytesP 5 r
  let (tl, r) ← readU64 r
  let (tk, r) ← ReadFixedChar 5 r
  let (isin, r) ← ReadFixedChar 12 r
  let (dsc, _) ← ReadVarChar 113 r
  pure ⟨v, tr, tl, tk, isin, dsc⟩

/-- TicketAdmission asset payload (assets.go lines 751-764). -/
structure TicketAdmission where
  Version : Nat
  TradingRestriction : List Nat
  AgeRestriction : List Nat
  AdmissionType : List Nat
  Venue : List Nat
  Class : List Nat
  Area : List Nat
  Seat : List Nat
  StartTimeDate : Nat
  ValidFrom : Nat
  ExpirationTimestamp : Nat
  Description : List Nat
  deriving DecidableEq, Repr

/-- TicketAdmission.serialize (assets.go lines 791-854). -/
def TicketAdmission.serialize (m : TicketAdmission) : Option (List Nat) := do
  let b4 ← WriteFixedChar m.AdmissionType 3
  let b5 ← WriteVarChar m.Venue 255
  let b6 ← WriteVarChar m.Class 255
  let b7 ← WriteVarChar m.Area 255
  let b8 ← WriteVarChar m.Seat 255
  let b12 ← WriteVarChar m.Description 16
  pure (writeU8 m.Version ++ padBytes m.TradingRestriction 5 ++
    padBytes m.AgeRestriction 5 ++ b4 ++ b5 ++ b6 ++ b7 ++ b8 ++
    writeU64 m.StartTimeDate ++ writeU64 m.ValidFrom ++
    writeU64 m.ExpirationTimestamp ++ b12)

/-- TicketAdmission.write (assets.go lines 857-946). -/
def TicketAdmission.write (b : List Nat) : Option TicketAdmission := do
  let (v, r) ← readU8 b
  let (tr, r) ← readBytesP 5 r
  let (ar, r) ← readBytesP 5 r
  let (adt, r) ← ReadFixedChar 3 r
  let (ven, r) ← ReadVarChar 255 r
  let (cls, r) ← ReadVarChar 255 r
  let (area, r) ← ReadVarChar 255 r
  let (seat, r) ← ReadVarChar 255 r
  let (st, r) ← readU64 r
  let (vf, r) ← readU64 r
  let (et, r) ← readU64 r
  let (dsc, _) ← ReadVarChar 16 r
  pure ⟨v, tr, ar, adt, ven, cls, area, seat, st, vf, et, dsc⟩

/-- Canonicality of a Coupon value: every field fits the widths its wire
format assigns it, and the fixed-length fields have exactly their wire
length. -/
def Coupon.Canonical (m : Coupon) : Prop :=
  m.Version < 256 ∧ m.TradingRestriction.length = 5 ∧
  m.RedeemingEntity.length ≤ 255 ∧ m.IssueDate < 256 ^ 8 ∧
  m.ExpiryDate < 256 ^ 8 ∧ m.Value < 256 ^ 8 ∧ m.Currency.length = 3 ∧
  m.Description.length ≤ 16

instance (m : Coupon) : Decidable m.Canonical := by
  unfold Coupon.Canonical
  infer_instance

/-- Canonicality of a Currency value. -/
def CurrencyAsset.Canonical (m : CurrencyAsset) : Prop :=
  m.Version < 256 ∧ m.TradingRestriction.length = 5 ∧ m.ISOCode.length = 3 ∧
  m.MonetaryAuthority.length ≤ 255 ∧ m.Description.length ≤ 255

instance (m : CurrencyAsset) : Decidable m.Canonical := by
  unfold CurrencyAsset.Canonical
  infer_instance

/-- Canonicality of a LoyaltyPoints value. -/
def LoyaltyPoints.Canonical (m : LoyaltyPoints) : Prop :=
  m.Version < 256 ∧ m.TradingRestriction.length = 5 ∧
  m.AgeRestriction.length = 5 ∧ m.OfferType < 256 ∧
  m.OfferName.length ≤ 255 ∧ m.ValidFrom < 256 ^ 8 ∧
  m.ExpirationTimestamp < 256 ^ 8 ∧ m.Description.length ≤ 16

instance (m : LoyaltyPoints) : Decidable m.Canonical := by
  unfold LoyaltyPoints.Canonical
  infer_instance

/-- Canonicality of a Membership value. -/
def MembershipAsset.Canonical (m : MembershipAsset) : Prop :=
  m.Version < 256 ∧ m.TradingRestriction.length = 5 ∧
  m.AgeRestriction.length = 5 ∧ m.ValidFrom < 256 ^ 8 ∧
  m.ExpirationTimestamp < 256 ^ 8 ∧ m.ID.length ≤ 255 ∧
  m.MembershipType.length ≤ 255 ∧ m.Description.length ≤ 16

instance (m : MembershipAsset) : Decidable m.Canonical := by
  unfold MembershipAsset.Canonical
  infer_instance

/-- Canonicality of a ShareCommon value. -/
def ShareCommon.Canonical (m : ShareCommon) : Prop :=
  m.Version < 256 ∧ m.TradingRestriction.length = 5 ∧
  m.TransferLockout < 256 ^ 8 ∧ m.Ticker.length = 5 ∧ m.ISIN.length = 12 ∧
  m.Description.length ≤ 113

instance (m : ShareCommon) : Decidable m.Canonical := by
  unfold ShareCommon.Canonical
  infer_instance

/-- Canonicality of a TicketAdmission value. -/
def TicketAdmission.Canonical (m : TicketAdmission) : Prop :=
  m.Version < 256 ∧ m.TradingRestriction.length = 5 ∧
  m.AgeRestriction.length = 5 ∧ m.AdmissionType.length = 3 ∧
  m.Venue.length ≤ 255 ∧ m.Class.length ≤ 255 ∧ m.Area.length ≤ 255 ∧
  m.Seat.length ≤ 255 ∧ m.StartTimeDate < 256 ^ 8 ∧ m.ValidFrom < 256 ^ 8 ∧
  m.ExpirationTimestamp < 256 ^ 8 ∧ m.Description.length ≤ 16

instance (m : TicketAdmission) : Decidable m.Canonical := by
  unfold TicketAdmission.Canonical
  infer_instance

/-! ## Request handler pipelines
The daemon's request handlers are embedded as pure decision pipelines: the
database lookups a handler performs, the clock, and the external
specification-library checks (permission decoding, payload deserialization,
key parsing, signature verification) enter as an environment record; the
handler body then maps the incoming transaction and message to an outcome.
Respond outcomes carry the response message data the handler assembles; fatal
is a Go error return (no on-chain response); panic marks a Go slice access
that is out of range. -/

/-- On-chain rejection codes used by the embedded handlers, one constructor
per actions.Rejections or protocol.RejectionCode value they reference, plus
ok for the zero value. -/
inductive RejectCode
  | ok
  | msgMalformed
  | contractMoved
  | contractFrozen
  | contractExpired
  | notAdministration
  | notOperatorCode
  | assetCodeExists
  | contractFixedQuantity
  | contractNotPermitted
  | contractExists
  | assetNotFound
  | assetRevision
  | voteNotFound
  | insufficientQuantity
  | insufficientAssets
  | operatorAddress
  | unknownAddress
  | invalidSignature
  | txMalformed
  | contractRevision
  | assetQtyReduction
  | bothOperatorsRequired
  deriving DecidableEq, Repr

/-- Result of a storage lookup: found, not found, or a database error. -/
inductive Lookup (α : Type)
  | found (a : α)
  | notFound
  | dbError
  deriving DecidableEq, Repr

/-- The handler's view of an inspector transaction: codec reject code, tx id,
and resolved input and output addresses in order. -/
structure HItx where
  rejectCode : RejectCode := .ok
  hash : Nat := 0
  inputs : List Nat := []
  outputs : List Nat := []
  deriving DecidableEq, Repr

/-- Contract state as read by the cmd/smartcontractd/handlers request
handlers (the newer state generation: raw-address administration and
operator, MovedTo and MasterAddress, AdminMemberAsset with zero meaning
unset). -/
structure ContractState where
  Revision : Nat := 0
  MovedTo : Option Nat := none
  MasterAddress : Option Nat := none
  FreezePeriod : Nat := 0
  ContractExpiration : Nat := 0
  VotingSystems : List Nat := []
  AdministrationAddress : Nat := 0
  OperatorAddress : Option Nat := none
  AssetCodes : List Nat := []
  RestrictedQtyAssets : Nat := 0
  ContractFee : Nat := 0
  AdminMemberAsset : Nat := 0
  deriving DecidableEq, Repr

/-- CanHaveMoreAssets on the newer contract state (same body as contract.go
lines 200-211): zero limit means unlimited, else count below limit. -/
def ContractState.CanHaveMoreAssets (ct : ContractState) : Bool :=
  if ct.RestrictedQtyAssets = 0 then true
  else ct.AssetCodes.length < ct.RestrictedQtyAssets

/-- IsOperator on the newer contract state: the party is the administration
or the operator address. -/
def ContractState.IsOperator (ct : ContractState) (addr : Nat) : Bool :=
  ct.AdministrationAddress = addr || ct.OperatorAddress = some addr

/-- AssetCreation response data assembled by the asset handlers: the fields
the handlers set or the claims reference. -/
structure AssetCreation where
  AssetCode : Nat := 0
  AssetIndex : Nat := 0
  AssetRevision : Nat := 0
  Timestamp : Nat := 0
  TokenQty : Nat := 0
  deriving DecidableEq, Repr

/-- AssetDefinition request message: the asset type code, the requested token
quantity, and the permission bytes whose validation is the abstract
permissionsOk flag of the environment. -/
structure AssetDefinitionMsg where
  AssetType : String := ""
  TokenQty : Nat := 0
  deriving DecidableEq, Repr

/-- Environment of Asset.DefinitionRequest: clock, agent address, the
external-library checks, the generated-code asset lookup, and the tx-store
write result. -/
structure DefEnv where
  now : Nat := 0
  rkAddress : Nat := 0
  permissionsOk : Bool := true
  assetCodeFrom : Nat → Nat → Nat := fun _ _ => 0
  assetLookup : Lookup Unit := .notFound
  payloadOk : Bool := true
  payloadValid : Bool := true
  membershipCast : Option String := none
  addTxOk : Bool := true

/-- Outcome of Asset.DefinitionRequest. -/
inductive DefResult
  | reject (code : RejectCode)
  | fatal
  | panic
  | respond (ac : AssetCreation)
  deriving DecidableEq, Repr

/-- Asset.DefinitionRequest (src/cmd/smartcontractd/handlers/asset.go lines
35-161): codec reject passthrough, contract retrieval, moved-to, freeze and
expiration checks, permission decoding, administration check, deterministic
asset code, duplicate check, asset-count limit, payload validation, the
single Owner/Administrator membership rule, then the AssetCreation
response. -/
def AssetDefinitionRequest (env : DefEnv) (ct? : Option ContractState)
    (itx : HItx) (msg : AssetDefinitionMsg) : DefResult :=
  if itx.rejectCode ≠ .ok then .reject itx.rejectCode
  else
    match ct? with
    | none => .fatal
    | some ct =>
      if ct.MovedTo.isSome then .reject .contractMoved
      else if env.now < ct.FreezePeriod then .reject .contractFrozen
      else if ct.ContractExpiration ≠ 0 ∧ ct.ContractExpiration < env.now then
        .reject .contractExpired
      else if ¬ env.permissionsOk then .reject .msgMalformed
      else
        match itx.inputs with
        | [] => .panic
        | sender :: _ =>
          if sender ≠ ct.AdministrationAddress then .reject .notAdministration
          else
            let assetCode := env.assetCodeFrom env.rkAddress ct.AssetCodes.length
            match env.assetLookup with
            | .found _ => .reject .assetCodeExists
            | .dbError => .fatal
            | .notFound =>
              if ¬ ct.CanHaveMoreAssets then .reject .contractFixedQuantity
              else if ¬ env.payloadOk then .reject .msgMalformed
              else if ¬ env.payloadValid then .reject .msgMalformed
              else
                let accept : DefResult :=
                  if ¬ env.addTxOk then .fatal
                  else .respond { AssetCode := assetCode,
                                  AssetIndex := ct.AssetCodes.length,
                                  AssetRevision := 0,
                                  Timestamp := env.now,
                                  TokenQty := msg.TokenQty }
                if msg.AssetType = "MEM" ∧ ct.AdminMemberAsset ≠ 0 then
                  match env.membershipCast with
                  | none => .reject .msgMalformed
                  | some cls =>
                    if cls = "Owner" ∨ cls = "Administrator" then
                      .reject .contractNotPermitted
                    else accept
                else accept

/-- AssetModification request message. Amendments are opaque blobs compared
for equality, RefTxID none is an empty reference. -/
structure AssetModificationMsg where
  AssetCode : Nat := 0
  AssetRevision : Nat := 0
  RefTxID : Option Nat := none
  Amendments : List Nat := []
  deriving DecidableEq, Repr

/-- Vote Result response message, as read back from the tx store. -/
structure ResultMsg where
  VoteTxId : Nat
  ProposedAmendments : List Nat
  deriving DecidableEq, Repr

/-- Stored vote state, the fields the modification handler reads. The Go
field named Type is VoteType here, Type being reserved. -/
structure VoteState where
  CompletedAt : Nat
  Result : String
  ProposedAmendments : List Nat
  AssetCode : Nat
  VoteType : Nat
  VoteSystem : Nat
  deriving DecidableEq, Repr

/-- Stored asset state, the fields the modification handler reads. -/
structure AssetState where
  Revision : Nat
  TokenQty : Nat
  deriving DecidableEq, Repr

/-- Modelled from the spec: the holdings record of internal/holdings, which
is not under src/. A holding carries a finalized balance and pending credits
and debits keyed by the originating request tx id (spec section 3 and
4.5.4). -/
structure Holding where
  FinalizedBalance : Nat
  PendingDebits : List (Nat × Nat)
  PendingCredits : List (Nat × Nat)
  deriving DecidableEq, Repr

/-- Sum of a holding's pending debit amounts. -/
def Holding.pendingDebitTotal (h : Holding) : Nat :=
  (h.PendingDebits.map Prod.snd).sum

/-- Modelled from the spec: holdings.AddDebit, which is not under src/. Spec
section 4.5.4: an AddDebit rejects if finalized minus the sum of pending
debits is below the amount; otherwise the pending debit is attached keyed by
the request tx id. -/
def holdingsAddDebit (h : Holding) (txid amount : Nat) : Option Holding :=
  if h.FinalizedBalance - h.pendingDebitTotal < amount then none
  else some { h with PendingDebits := (txid, amount) :: h.PendingDebits }

/-- Modelled from the spec: holdings.AddDeposit, which is not under src/. A
pending credit is attached keyed by the request tx id. -/
def holdingsAddDeposit (h : Holding) (txid amount : Nat) : Holding :=
  { h with PendingCredits := (txid, amount) :: h.PendingCredits }

/-- Environment of Asset.ModificationRequest: clock, agent address, the tx
and vote stores, the asset lookup, the administration holding, the abstract
amendment applier (applyAssetAmendments taking the converted creation, the
contract's voting systems, the amendments, and the proposal data), and the
tx-store write result. -/
structure ModEnv where
  now : Nat := 0
  rkAddress : Nat := 0
  getVoteResult : Nat → Option ResultMsg := fun _ => none
  getVote : Nat → Lookup VoteState := fun _ => .notFound
  assetLookup : Lookup AssetState := .notFound
  adminHolding : Option Holding := none
  applyAmendments :
    AssetCreation → List Nat → List Nat → Bool → Nat → Nat →
      Except RejectCode AssetCreation := fun ac _ _ _ _ _ => .ok ac
  addTxOk : Bool := true

/-- Outcome of the proposal-reference verification block of
ModificationRequest (asset.go lines 217-290). -/
inductive ProposalCheck
  | proceed (proposed : Bool) (proposalType : Nat) (votingSystem : Nat)
  | reject (code : RejectCode)
  | fatal
  deriving DecidableEq, Repr

/-- The proposal-reference verification of ModificationRequest (asset.go
lines 217-290): with a RefTxID present, locate the Result tx and its Vote and
check completion, acceptance, specificity, the asset code, and that the
proposed amendments match the requested ones. -/
def checkModificationProposal (env : ModEnv) (msg : AssetModificationMsg) :
    ProposalCheck :=
  match msg.RefTxID with
  | none => .proceed false 0 0
  | some refTxId =>
    match env.getVoteResult refTxId with
    | none => .reject .msgMalformed
    | some voteResult =>
      match env.getVote voteResult.VoteTxId with
      | .notFound => .reject .voteNotFound
      | .dbError => .fatal
      | .found vt =>
        if vt.CompletedAt = 0 then .reject .msgMalformed
        else if vt.Result ≠ "A" then .reject .msgMalformed
        else if vt.ProposedAmendments = [] then .reject .msgMalformed
        else if vt.AssetCode = 0 ∨ vt.AssetCode ≠ msg.AssetCode then
          .reject .msgMalformed
        else if voteResult.ProposedAmendments.length ≠ msg.Amendments.length then
          .reject .msgMalformed
        else if voteResult.ProposedAmendments ≠ msg.Amendments then
          .reject .msgMalformed
        else .proceed true vt.VoteType vt.VoteSystem

/-- Outcome of Asset.ModificationRequest. A respond outcome carries the saved
administration holding when the token quantity changed, none otherwise; a
reject outcome carries no state change. -/
inductive ModResult
  | reject (code : RejectCode)
  | fatal
  | panic
  | respond (ac : AssetCreation) (savedHolding : Option Holding)
  deriving DecidableEq, Repr

/-- Asset.ModificationRequest (asset.go lines 164-372): codec reject
passthrough, contract retrieval, moved-to check, operator check, asset and
revision checks, proposal verification, amendment application, then the
administration-holding adjustment when the token quantity changes (debit of
the decrease, rejecting InsufficientQuantity when the holding cannot cover
it, or deposit of the increase), and the AssetCreation response. -/
def AssetModificationRequest (env : ModEnv) (ct? : Option ContractState)
    (itx : HItx) (msg : AssetModificationMsg) : ModResult :=
  if itx.rejectCode ≠ .ok then .reject itx.rejectCode
  else
    match ct? with
    | none => .fatal
    | some ct =>
      if ct.MovedTo.isSome then .reject .contractMoved
      else
        match itx.inputs with
        | [] => .panic
        | sender :: _ =>
          if ¬ ct.IsOperator sender then .reject .notOperatorCode
          else
            match env.assetLookup with
            | .dbError => .fatal
            | .notFound => .reject .assetNotFound
            | .found as =>
              if as.Revision ≠ msg.AssetRevision then .reject .assetRevision
              else
                match checkModificationProposal env msg with
                | .fatal => .fatal
                | .reject c => .reject c
                | .proceed proposed ptype vsys =>
                  let ac0 : AssetCreation :=
                    { AssetCode := msg.AssetCode,
                      AssetRevision := as.Revision + 1,
                      Timestamp := env.now,
                      TokenQty := as.TokenQty }
                  match env.applyAmendments ac0 ct.VotingSystems
                      msg.Amendments proposed ptype vsys with
                  | .error code => .reject code
                  | .ok ac =>
                    if ac.TokenQty ≠ as.TokenQty then
                      match env.adminHolding with
                      | none => .fatal
                      | some h =>
                        if ac.TokenQty < as.TokenQty then
                          match holdingsAddDebit h itx.hash
                              (as.TokenQty - ac.TokenQty) with
                          | none => .reject .insufficientQuantity
                          | some h2 =>
                            if ¬ env.addTxOk then .fatal
                            else .respond ac (some h2)
                        else
                          let h2 := holdingsAddDeposit h itx.hash
                            (ac.TokenQty - as.TokenQty)
                          if ¬ env.addTxOk then .fatal
                          else .respond ac (some h2)
                    else if ¬ env.addTxOk then .fatal
                    else .respond ac none

/-- ContractOffer request message: the fields OfferRequest checks or copies,
with the external-library validations abstracted into the environment. -/
structure ContractOfferMsg where
  BodyOfAgreementType : Nat := 0
  BodyOfAgreement : List Nat := []
  ContractExpiration : Nat := 0
  MasterAddress : List Nat := []
  ContractOperatorIncluded : Bool := false
  ContractFee : Nat := 0
  deriving DecidableEq, Repr

/-- ContractFormation response data assembled by OfferRequest. -/
structure ContractFormationMsg where
  ContractRevision : Nat
  Timestamp : Nat
  AdminAddress : Nat
  OperatorAddress : Option Nat
  deriving DecidableEq, Repr

/-- Environment of Contract.OfferRequest: clock, agent address, contract
lookup, and the external-library validation results. -/
structure OfferEnv where
  now : Nat := 0
  rkAddress : Nat := 0
  contractLookup : Lookup Unit := .notFound
  masterAddressValid : Bool := true
  permissionsOk : Bool := true
  votingSystemsValid : Bool := true
  addTxOk : Bool := true

/-- Outcome of Contract.OfferRequest. -/
inductive OfferResult
  | reject (code : RejectCode)
  | fatal
  | panic
  | respond (cf : ContractFormationMsg)
  deriving DecidableEq, Repr

/-- Contract.OfferRequest (src/unnamed/part_004 lines 1379-1479): codec
reject passthrough, the contract-exists check, body-of-agreement, expiration,
master address, permission and voting-system validation, administration and
operator inputs, then the ContractFormation response with revision zero and
the server timestamp. -/
def ContractOfferRequest (env : OfferEnv) (itx : HItx) (msg : ContractOfferMsg) :
    OfferResult :=
  if itx.rejectCode ≠ .ok then .reject itx.rejectCode
  else
    match env.contractLookup with
    | .found _ => .reject .contractExists
    | .dbError => .fatal
    | .notFound =>
      if msg.BodyOfAgreementType = 1 ∧ msg.BodyOfAgreement.length ≠ 32 then
        .reject .msgMalformed
      else if msg.ContractExpiration ≠ 0 ∧ msg.ContractExpiration < env.now then
        .reject .msgMalformed
      else if 0 < msg.MasterAddress.length ∧ ¬ env.masterAddressValid then
        .reject .msgMalformed
      else if ¬ env.permissionsOk then .reject .msgMalformed
      else if ¬ env.votingSystemsValid then .reject .msgMalformed
      else
        match itx.inputs with
        | [] => .panic
        | admin :: restInputs =>
          if msg.ContractOperatorIncluded ∧ itx.inputs.length < 2 then
            .reject .msgMalformed
          else
            let cf : ContractFormationMsg :=
              { ContractRevision := 0,
                Timestamp := env.now,
                AdminAddress := admin,
                OperatorAddress :=
                  if msg.ContractOperatorIncluded then restInputs.head? else none }
            if ¬ env.addTxOk then .fatal else .respond cf

/-- Outcome of Contract.AmendmentRequest. -/
inductive AmendResult
  | reject (code : RejectCode)
  | fatal
  | panic
  | respond (cf : ContractFormationMsg)
  deriving DecidableEq, Repr

/-- Contract.AmendmentRequest (src/unnamed/part_004 lines 1482-1523 for the
checks embedded here): codec reject passthrough, contract retrieval, the
moved-to check, the operator check and the revision check. The remainder of
the handler (proposal verification, asset-quantity reduction, operator
change, oracle signature, amendment application and response assembly) is the
tail parameter; the theorems stated about this pipeline hold for every
tail. -/
def ContractAmendmentRequest (tail : ContractState → HItx → AmendResult)
    (ct? : Option ContractState) (itx : HItx) (msgContractRevision : Nat) :
    AmendResult :=
  if itx.rejectCode ≠ .ok then .reject itx.rejectCode
  else
    match ct? with
    | none => .fatal
    | some ct =>
      if ct.MovedTo.isSome then .reject .contractMoved
      else
        match itx.inputs with
        | [] => .panic
        | sender :: _ =>
          if ¬ ct.IsOperator sender then .reject .notOperatorCode
          else if ct.Revision ≠ msgContractRevision then .reject .contractRevision
          else tail ct itx

/-! ## Enforcement order pipeline
Embedded from src/cmd/smartcontractd/handlers/enforcement.go (the earlier
state generation: parties are public key hashes, the contract record is
StateContract). The asset balance store of internal/asset is not under src/
and is modelled from the spec (an asset owns a holdings map). Response
outcomes carry the response message data and the per-target notification
outputs the handler adds before the change and fee outputs; the change and
fee outputs are appended unconditionally after every accepted path and are
not represented. -/

/-- Modelled from the spec: the asset state read by the enforcement handlers
(internal/asset is not under src/): a holdings map from party to finalized
balance. -/
structure EnfAsset where
  Holdings : List (Nat × Nat)
  deriving DecidableEq, Repr

/-- Modelled from the spec: asset.GetBalance, a holdings-map lookup
defaulting to zero. -/
def EnfAsset.GetBalance (as : EnfAsset) (pkh : Nat) : Nat :=
  match as.Holdings.lookup pkh with
  | some b => b
  | none => 0

/-- Modelled from the spec: asset.CheckHolding, holdings-map membership. -/
def EnfAsset.CheckHolding (as : EnfAsset) (pkh : Nat) : Bool :=
  (as.Holdings.lookup pkh).isSome

/-- Compliance action sub-type carried by an Order message. -/
inductive ComplianceAction
  | freezeAction
  | thawAction
  | confiscationAction
  | reconciliationAction
  | unknownAction
  deriving DecidableEq, Repr

/-- Target address entry of an Order: party and quantity. -/
structure TargetAddress where
  Address : Nat
  Quantity : Nat
  deriving DecidableEq, Repr

/-- Output-index and quantity pair used by Freeze, Confiscation and
Reconciliation responses and by bitcoin dispersions. -/
structure QuantityIndex where
  Index : Nat
  Quantity : Nat
  deriving DecidableEq, Repr

/-- Order request message: the fields the enforcement handlers read. A zero
AssetCode is the all-zero asset code. -/
structure OrderMsg where
  ComplianceAction : ComplianceAction := .unknownAction
  AssetCode : Nat := 0
  TargetAddresses : List TargetAddress := []
  DepositAddress : Nat := 0
  BitcoinDispersions : List QuantityIndex := []
  AuthorityIncluded : Bool := false
  SignatureAlgorithm : Nat := 0
  FreezeTxId : Nat := 0
  deriving DecidableEq, Repr

/-- Freeze message data of a cached freeze transaction, as read back by the
thaw handler. -/
structure FreezeMsgData where
  AssetCode : Nat
  Quantities : List QuantityIndex
  FreezePeriod : Nat
  deriving DecidableEq, Repr

/-- A cached freeze transaction: its output addresses by index and the
decoded Freeze message if its payload casts to one. -/
structure FreezeTxInfo where
  outputs : List Nat
  freeze : Option FreezeMsgData
  deriving DecidableEq, Repr

/-- Environment of the enforcement order handlers: the contract's public key
hash, the asset lookup, the authority-signature checks (external key and
signature parsing and verification), the cached freeze transaction for thaw,
and the per-address btcutil address construction results. -/
structure EnfEnv where
  contractPKH : Nat := 0
  assetLookup : Lookup EnfAsset := .notFound
  authorityKeyOk : Bool := true
  authoritySigParseOk : Bool := true
  sigHashOk : Bool := true
  authoritySigVerified : Bool := true
  freezeTx : Option FreezeTxInfo := none
  targetAddrOk : Nat → Bool := fun _ => true
  contractAddrOk : Bool := true

/-- Outcome of an enforcement order handler. -/
inductive EnfResult
  | reject (code : RejectCode)
  | fatal
  | panic
  | noResponse
  | freezeResp (quantities : List QuantityIndex) (outputs : List (Nat × Nat))
  | thawResp (freezeTxId : Nat) (outputs : List (Nat × Nat))
  | confiscationResp (quantities : List QuantityIndex) (depositQty : Nat)
      (outputs : List (Nat × Nat))
  | reconciliationResp (quantities : List QuantityIndex)
      (outputs : List (Nat × Nat))
  deriving DecidableEq, Repr

/-- The target-address loop of OrderFreezeRequest (enforcement.go lines
161-186): per target, holding existence, non-zero quantity and address
construction checks, accumulating freeze quantities and notification
outputs. -/
def freezeTargetsLoop (env : EnfEnv) (as : EnfAsset)
    (targets : List TargetAddress) (outputIndex : Nat) :
    Except RejectCode (List QuantityIndex × List (Nat × Nat)) :=
  match targets with
  | [] => .ok ([], [])
  | t :: rest =>
    if ¬ as.CheckHolding t.Address then .error .insufficientAssets
    else if t.Quantity = 0 then .error .msgMalformed
    else if ¬ env.targetAddrOk t.Address then .error .unknownAddress
    else
      match freezeTargetsLoop env as rest (outputIndex + 1) with
      | .error e => .error e
      | .ok (qs, outs) =>
        .ok (⟨outputIndex, t.Quantity⟩ :: qs, (t.Address, 0) :: outs)

/-- The full-freeze detection of OrderFreezeRequest (enforcement.go lines
132-139): a single target whose address is the contract's. -/
def orderFreezeFull (env : EnfEnv) (msg : OrderMsg) : Bool :=
  decide (msg.TargetAddresses.length = 1 ∧
    msg.TargetAddresses.head?.map TargetAddress.Address = some env.contractPKH)

/-- The freeze quantities seeded for a full freeze: index zero at quantity
zero, and nothing otherwise. -/
def orderFreezeQuantities (env : EnfEnv) (msg : OrderMsg) : List QuantityIndex :=
  if orderFreezeFull env msg then [⟨0, 0⟩] else []

/-- OrderFreezeRequest (enforcement.go lines 105-203): the full-freeze
detection (a single target equal to the contract), the zero-asset-code rule,
the asset lookup, the target loop, and the Freeze response. -/
def OrderFreezeRequest (env : EnfEnv) (ct : StateContract) (msg : OrderMsg) :
    EnfResult :=
  if msg.TargetAddresses = [] then .reject .msgMalformed
  else if msg.AssetCode = 0 then
    if ¬ orderFreezeFull env msg then .reject .msgMalformed
    else if ¬ env.contractAddrOk then .reject .unknownAddress
    else .freezeResp (orderFreezeQuantities env msg) []
  else
    match env.assetLookup with
    | .found as =>
      if ¬ orderFreezeFull env msg then
        match freezeTargetsLoop env as msg.TargetAddresses 0 with
        | .error e => .reject e
        | .ok (qs, outs) =>
          if ¬ env.contractAddrOk then .reject .unknownAddress
          else .freezeResp qs outs
      else if ¬ env.contractAddrOk then .reject .unknownAddress
      else .freezeResp (orderFreezeQuantities env msg) []
    | _ => .reject .assetNotFound

/-- The full-freeze detection of OrderThawRequest (enforcement.go lines
248-254): a single freeze quantity whose indexed freeze-tx output is the
contract's address; a none result is the Go panic of an out-of-range index. -/
def thawFullCheck (env : EnfEnv) (ftx : FreezeTxInfo) (q0 : QuantityIndex)
    (qrest : List QuantityIndex) : Option Bool :=
  if qrest = [] then
    match ftx.outputs.get? q0.Index with
    | none => none
    | some a => some (decide (a = env.contractPKH))
  else some false

/-- OrderThawRequest (enforcement.go lines 206-291): the request must come
from the contract, the referenced Freeze tx is looked up in the cache, its
quantities drive the notification outputs, and out-of-range quantity indexes
into the freeze tx outputs are the Go panic. The full and not-full paths of
the source's two branches on the asset code are regrouped by the full flag,
branch for branch. -/
def OrderThawRequest (env : EnfEnv) (ct : StateContract) (itx : HItx)
    (msg : OrderMsg) : EnfResult :=
  match itx.inputs with
  | [] => .panic
  | sender :: _ =>
    if sender ≠ env.contractPKH then .fatal
    else
      match env.freezeTx with
      | none => .fatal
      | some ftx =>
        match ftx.freeze with
        | none => .fatal
        | some freeze =>
          match freeze.Quantities with
          | [] => .reject .msgMalformed
          | q0 :: qrest =>
            match thawFullCheck env ftx q0 qrest with
            | none => .panic
            | some true =>
              if ¬ env.contractAddrOk then .reject .unknownAddress
              else .thawResp msg.FreezeTxId []
            | some false =>
              if freeze.AssetCode = 0 then .reject .msgMalformed
              else
                match ((q0 :: qrest).mapM fun q => ftx.outputs.get? q.Index) with
                | none => .panic
                | some addrs =>
                  if ¬ env.contractAddrOk then .reject .unknownAddress
                  else .thawResp msg.FreezeTxId (addrs.map fun a => (a, 0))

/-- The target-address loop of OrderConfiscateRequest (enforcement.go lines
345-372): per target, non-zero quantity, sufficient balance and address
construction checks, accumulating post-confiscation quantities, the deposit
increase and notification outputs. -/
def confiscateTargetsLoop (env : EnfEnv) (as : EnfAsset)
    (targets : List TargetAddress) (outputIndex : Nat) :
    Except RejectCode (List QuantityIndex × Nat × List (Nat × Nat)) :=
  match targets with
  | [] => .ok ([], 0, [])
  | t :: rest =>
    if t.Quantity = 0 then .error .msgMalformed
    else if as.GetBalance t.Address < t.Quantity then .error .insufficientAssets
    else if ¬ env.targetAddrOk t.Address then .error .unknownAddress
    else
      match confiscateTargetsLoop env as rest (outputIndex + 1) with
      | .error e => .error e
      | .ok (qs, dep, outs) =>
        .ok (⟨outputIndex, as.GetBalance t.Address - t.Quantity⟩ :: qs,
          t.Quantity + dep, (t.Address, 0) :: outs)

/-- OrderConfiscateRequest (enforcement.go lines 294-390): asset lookup,
deposit address validation, deposit balance seed, the target loop, the
deposit notification output and the Confiscation response. -/
def OrderConfiscateRequest (env : EnfEnv) (ct : StateContract) (msg : OrderMsg) :
    EnfResult :=
  match env.assetLookup with
  | .found as =>
    if ¬ env.targetAddrOk msg.DepositAddress then .reject .unknownAddress
    else
      match confiscateTargetsLoop env as msg.TargetAddresses 0 with
      | .error e => .reject e
      | .ok (qs, depositAdd, outs) =>
        if ¬ env.contractAddrOk then .reject .unknownAddress
        else
          .confiscationResp qs (as.GetBalance msg.DepositAddress + depositAdd)
            (outs ++ [(msg.DepositAddress, 0)])
  | _ => .reject .assetNotFound

/-- The target-address loop of OrderReconciliationRequest (enforcement.go
lines 436-462): per target, non-zero quantity, sufficient balance and address
construction checks, accumulating post-reconciliation quantities, the
notification outputs and the address output index list. -/
def reconcileTargetsLoop (env : EnfEnv) (as : EnfAsset)
    (targets : List TargetAddress) (outputIndex : Nat) :
    Except RejectCode (List QuantityIndex × List (Nat × Nat) × List Nat) :=
  match targets with
  | [] => .ok ([], [], [])
  | t :: rest =>
    if t.Quantity = 0 then .error .msgMalformed
    else if as.GetBalance t.Address < t.Quantity then .error .insufficientAssets
    else if ¬ env.targetAddrOk t.Address then .error .unknownAddress
    else
      match reconcileTargetsLoop env as rest (outputIndex + 1) with
      | .error e => .error e
      | .ok (qs, outs, aoi) =>
        .ok (⟨outputIndex, as.GetBalance t.Address - t.Quantity⟩ :: qs,
          (t.Address, 0) :: outs, outputIndex :: aoi)

/-- The bitcoin-dispersion loop of OrderReconciliationRequest
(enforcement.go lines 465-469). The source reads

  for _, quantity := range msg.BitcoinDispersions
    if int(quantity.Index) >= len(addressOutputIndex)
      outputs[addressOutputIndex[quantity.Index]].Value += quantity.Quantity

so the guarded body indexes addressOutputIndex exactly when quantity.Index is
out of its range: the body, when entered, panics (none here), and an in-range
dispersion index leaves the outputs untouched. -/
def applyBitcoinDispersions (dispersions : List QuantityIndex)
    (addressOutputIndex : List Nat) (outputs : List (Nat × Nat)) :
    Option (List (Nat × Nat)) :=
  match dispersions with
  | [] => some outputs
  | q :: rest =>
    if addressOutputIndex.length ≤ q.Index then none
    else applyBitcoinDispersions rest addressOutputIndex outputs

/-- OrderReconciliationRequest (enforcement.go lines 393-489): asset lookup,
the target loop, the bitcoin-dispersion pass over the pending outputs, and
the Reconciliation response. -/
def OrderReconciliationRequest (env : EnfEnv) (ct : StateContract)
    (msg : OrderMsg) : EnfResult :=
  match env.assetLookup with
  | .found as =>
    match reconcileTargetsLoop env as msg.TargetAddresses 0 with
    | .error e => .reject e
    | .ok (qs, outs, aoi) =>
      match applyBitcoinDispersions msg.BitcoinDispersions aoi outs with
      | none => .panic
      | some outs2 =>
        if ¬ env.contractAddrOk then .reject .unknownAddress
        else .reconciliationResp qs outs2
  | _ => .reject .assetNotFound

/-- Enforcement.OrderRequest (enforcement.go lines 33-102): operator check,
the optional authority-signature verification, then dispatch on the
compliance action; an unknown action logs and produces no response. -/
def EnforcementOrderRequest (env : EnfEnv) (ct? : Option StateContract)
    (itx : HItx) (msg : OrderMsg) : EnfResult :=
  match ct? with
  | none => .fatal
  | some ct =>
    match itx.inputs with
    | [] => .panic
    | sender :: _ =>
      if ¬ IsOperator ct sender then .reject .operatorAddress
      else if msg.AuthorityIncluded ∧ msg.SignatureAlgorithm ≠ 1 then
        .reject .msgMalformed
      else if msg.AuthorityIncluded ∧ ¬ env.authorityKeyOk then
        .reject .msgMalformed
      else if msg.AuthorityIncluded ∧ ¬ env.authoritySigParseOk then
        .reject .msgMalformed
      else if msg.AuthorityIncluded ∧ ¬ env.sigHashOk then .fatal
      else if msg.AuthorityIncluded ∧ ¬ env.authoritySigVerified then
        .reject .invalidSignature
      else
        match msg.ComplianceAction with
        | .freezeAction => OrderFreezeRequest env ct msg
        | .thawAction => OrderThawRequest env ct itx msg
        | .confiscationAction => OrderConfiscateRequest env ct msg
        | .reconciliationAction => OrderReconciliationRequest env ct msg
        | .unknownAction => .noResponse

/-! ## Concrete instances used by witnesses and counterexamples -/

/-- A multi-PKH address: one required signature over a single all-zero hash,
main network. -/
def mpkh0 : AddressMultiPKH := ⟨1, [List.replicate 20 0], .mainNet⟩

/-- A stand-in double SHA-256 for instantiating the parameterized codec
theorems at a concrete point. -/
def dsha0 : List Nat → List Nat := fun _ => List.replicate 32 1

/-- A stand-in Base58 decoder agreeing with the encoder on the one string the
witness feeds it. -/
def b58dec0 : String → List Nat :=
  fun _ => (Address.multiPKH mpkh0).bytes ++ List.replicate 4 1

/-- A moved contract of the earlier state generation: moved-to set, issuer 7,
master address 50. -/
def movedOldContract : StateContract :=
  { MovedTo := some 99, IssuerPKH := 7, MasterAddress := some 50 }

/-- A moved contract of the newer state generation whose administration is
also the recorded master address 50. -/
def movedMasterContract : ContractState :=
  { MovedTo := some 99, MasterAddress := some 50, AdministrationAddress := 50 }

/-- An asset whose single holder, address 5, has a balance of ten. -/
def reconAsset : EnfAsset := ⟨[(5, 10)]⟩

/-- A reconciliation order against address 5 for three tokens with a bitcoin
dispersion of five satoshis to listed target zero. -/
def reconOrder : OrderMsg :=
  { ComplianceAction := .reconciliationAction, AssetCode := 1,
    TargetAddresses := [⟨5, 3⟩], BitcoinDispersions := [⟨0, 5⟩] }

/-- A Coupon whose TradingRestriction field is shorter than its 5-byte wire
slot: the encoder pads it, so the decoded value differs from the original. -/
def couponPad : Coupon := ⟨0, [], [], 0, 0, 0, [85, 83, 68], []⟩

/-- A concrete canonical Coupon used as round-trip witness input. -/
def couponW : Coupon := ⟨1, [0, 1, 2, 3, 4], [65], 2, 3, 4, [85, 83, 68], [66]⟩

/-!
# Theorems

Helper lemmas come first; each claim's theorem carries a doc comment naming
the claim it settles.
-/

theorem leBytes_length (w v : Nat) : (leBytes w v).length = w := by
  induction w generalizing v with
  | zero => rfl
  | succ w ih => simp [leBytes, ih]

theorem leVal_leBytes (w v : Nat) : leVal (leBytes w v) = v % 256 ^ w := by
  induction w generalizing v with
  | zero => simp [leBytes, leVal, Nat.mod_one]
  | succ w ih =>
    rw [leBytes, leVal, ih, pow_succ', Nat.mod_mul]

theorem readBytesP_exact (s : List Nat) (n : Nat) (h : s.length = n)
    (r : List Nat) : readBytesP n (s ++ r) = some (s, r) := by
  subst h
  rw [readBytesP, if_neg (by simp only [List.length_append]; omega),
    List.take_left, List.drop_left]

theorem readU8_writeU8 (v : Nat) (hv : v < 256) (r : List Nat) :
    readU8 (writeU8 v ++ r) = some (v, r) := by
  simp [writeU8, readU8, Nat.mod_eq_of_lt hv]

theorem readU64_writeU64 (v : Nat) (hv : v < 256 ^ 8) (r : List Nat) :
    readU64 (writeU64 v ++ r) = some (v, r) := by
  rw [writeU64, readU64, readUIntLE, readBytesP_exact _ _ (leBytes_length 8 v)]
  simp only [Option.map_some']
  rw [leVal_leBytes, Nat.mod_eq_of_lt hv]

theorem padBytes_exact (b : List Nat) (h : b.length = 5) : padBytes b 5 = b := by
  rw [padBytes, h, Nat.sub_self, List.replicate_zero, List.append_nil]

theorem ReadVarChar_append (s : List Nat) (maxLen : Nat)
    (hs : s.length ≤ maxLen) (hm : maxLen < 256) (r : List Nat) :
    ReadVarChar maxLen (leBytes (varLenWidth maxLen) s.length ++ (s ++ r)) =
      some (s, r) := by
  have hwid : varLenWidth maxLen = 1 := by rw [varLenWidth, if_pos hm]
  rw [ReadVarChar, hwid, readUIntLE, readBytesP_exact _ _ (leBytes_length 1 _)]
  simp only [Option.map_some']
  have hslen : s.length < 256 ^ 1 := by rw [pow_one]; omega
  rw [leVal_leBytes, Nat.mod_eq_of_lt hslen]
  exact readBytesP_exact s s.length rfl r

theorem ReadVarChar_append_last (s : List Nat) (maxLen : Nat)
    (hs : s.length ≤ maxLen) (hm : maxLen < 256) :
    ReadVarChar maxLen (leBytes (varLenWidth maxLen) s.length ++ s) =
      some (s, []) := by
  have h := ReadVarChar_append s maxLen hs hm []
  rwa [List.append_nil] at h

theorem ReadFixedChar_append (s : List Nat) (n : Nat) (h : s.length = n)
    (r : List Nat) : ReadFixedChar n (s ++ r) = some (s, r) := by
  rw [ReadFixedChar]
  exact readBytesP_exact s n h r

theorem coupon_serialize_write (m : Coupon) (hm : m.Canonical) (bs : List Nat)
    (h : m.serialize = some bs) : Coupon.write bs = some m := by
  obtain ⟨h1, h2, h3, h4, h5, h6, h7, h8⟩ := hm
  have hre : WriteVarChar m.RedeemingEntity 255 =
      some (leBytes (varLenWidth 255) m.RedeemingEntity.length ++ m.RedeemingEntity) := by
    rw [WriteVarChar, if_neg (by omega)]
  have hcur : WriteFixedChar m.Currency 3 = some m.Currency := by
    rw [WriteFixedChar, if_neg (by omega), h7, Nat.sub_self,
      List.replicate_zero, List.append_nil]
  have hdsc : WriteVarChar m.Description 16 =
      some (leBytes (varLenWidth 16) m.Description.length ++ m.Description) := by
    rw [WriteVarChar, if_neg (by omega)]
  rw [Coupon.serialize, hre, hcur, hdsc] at h
  simp only [Option.bind_some, Option.some_bind, pure] at h
  rw [padBytes_exact _ h2] at h
  cases h
  simp only [Coupon.write, List.append_assoc, Option.bind_eq_bind,
    readU8_writeU8 _ h1, Option.some_bind,
    readBytesP_exact _ _ h2, ReadVarChar_append _ _ h3 (by omega),
    readU64_writeU64 _ h4, readU64_writeU64 _ h5, readU64_writeU64 _ h6,
    ReadFixedChar_append _ _ h7,
    ReadVarChar_append_last _ _ h8 (by omega), pure]

theorem currencyAsset_serialize_write (m : CurrencyAsset) (hm : m.Canonical)
    (bs : List Nat) (h : m.serialize = some bs) :
    CurrencyAsset.write bs = some m := by
  obtain ⟨h1, h2, h3, h4, h5⟩ := hm
  have hiso : WriteFixedChar m.ISOCode 3 = some m.ISOCode := by
    rw [WriteFixedChar, if_neg (by omega), h3, Nat.sub_self,
      List.replicate_zero, List.append_nil]
  have hma : WriteVarChar m.MonetaryAuthority 255 =
      some (leBytes (varLenWidth 255) m.MonetaryAuthority.length ++ m.MonetaryAuthority) := by
    rw [WriteVarChar, if_neg (by omega)]
  have hdsc : WriteVarChar m.Description 255 =
      some (leBytes (varLenWidth 255) m.Description.length ++ m.Description) := by
    rw [WriteVarChar, if_neg (by omega)]
  rw [CurrencyAsset.serialize, hiso, hma, hdsc] at h
  simp only [Option.bind_some, Option.some_bind, pure] at h
  rw [padBytes_exact _ h2] at h
  cases h
  simp only [CurrencyAsset.write, List.append_assoc, Option.bind_eq_bind,
    readU8_writeU8 _ h1, Option.some_bind, readBytesP_exact _ _ h2,
    ReadFixedChar_append _ _ h3, ReadVarChar_append _ _ h4 (by omega),
    ReadVarChar_append_last _ _ h5 (by omega), pure]

theorem loyaltyPoints_serialize_write (m : LoyaltyPoints) (hm : m.Canonical)
    (bs : List Nat) (h : m.serialize = some bs) :
    LoyaltyPoints.write bs = some m := by
  obtain ⟨h1, h2, h3, h4, h5, h6, h7, h8⟩ := hm
  have hnm : WriteVarChar m.OfferName 255 =
      some (leBytes (varLenWidth 255) m.OfferName.length ++ m.OfferName) := by
    rw [WriteVarChar, if_neg (by omega)]
  have hdsc : WriteVarChar m.Description 16 =
      some (leBytes (varLenWidth 16) m.Description.length ++ m.Description) := by
    rw [WriteVarChar, if_neg (by omega)]
  rw [LoyaltyPoints.serialize, hnm, hdsc] at h
  simp only [Option.bind_some, Option.some_bind, pure] at h
  rw [padBytes_exact _ h2, padBytes_exact _ h3] at h
  cases h
  simp only [LoyaltyPoints.write, List.append_assoc, Option.bind_eq_bind,
    readU8_writeU8 _ h1, readU8_writeU8 _ h4, Option.some_bind,
    readBytesP_exact _ _ h2, readBytesP_exact _ _ h3,
    ReadVarChar_append _ _ h5 (by omega), readU64_writeU64 _ h6,
    readU64_writeU64 _ h7, ReadVarChar_append_last _ _ h8 (by omega), pure]

theorem membershipAsset_serialize_write (m : MembershipAsset)
    (hm : m.Canonical) (bs : List Nat) (h : m.serialize = some bs) :
    MembershipAsset.write bs = some m := by
  obtain ⟨h1, h2, h3, h4, h5, h6, h7, h8⟩ := hm
  have hid : WriteVarChar m.ID 255 =
      some (leBytes (varLenWidth 255) m.ID.length ++ m.ID) := by
    rw [WriteVarChar, if_neg (by omega)]
  have hmt : WriteVarChar m.MembershipType 255 =
      some (leBytes (varLenWidth 255) m.MembershipType.length ++ m.MembershipType) := by
    rw [WriteVarChar, if_neg (by omega)]
  have hdsc : WriteVarChar m.Description 16 =
      some (leBytes (varLenWidth 16) m.Description.length ++ m.Description) := by
    rw [WriteVarChar, if_neg (by omega)]
  rw [MembershipAsset.serialize, hid, hmt, hdsc] at h
  simp only [Option.bind_some, Option.some_bind, pure] at h
  rw [padBytes_exact _ h2, padBytes_exact _ h3] at h
  cases h
  simp only [MembershipAsset.write, List.append_assoc, Option.bind_eq_bind,
    readU8_writeU8 _ h1, Option.some_bind, readBytesP_exact _ _ h2,
    readBytesP_exact _ _ h3, readU64_writeU64 _ h4, readU64_writeU64 _ h5,
    ReadVarChar_append _ _ h6 (by omega), ReadVarChar_append _ _ h7 (by omega),
    ReadVarChar_append_last _ _ h8 (by omega), pure]

theorem shareCommon_serialize_write (m : ShareCommon) (hm : m.Canonical)
    (bs : List Nat) (h : m.serialize = some bs) :
    ShareCommon.write bs = some m := by
  obtain ⟨h1, h2, h3, h4, h5, h6⟩ := hm
  have htk : WriteFixedChar m.Ticker 5 = some m.Ticker := by
    rw [WriteFixedChar, if_neg (by omega), h4, Nat.sub_self,
      List.replicate_zero, List.append_nil]
  have hisin : WriteFixedChar m.ISIN 12 = some m.ISIN := by
    rw [WriteFixedChar, if_neg (by omega), h5, Nat.sub_self,
      List.replicate_zero, List.append_nil]
  have hdsc : WriteVarChar m.Description 113 =
      some (leBytes (varLenWidth 113) m.Description.length ++ m.Description) := by
    rw [WriteVarChar, if_neg (by omega)]
  rw [ShareCommon.serialize, htk, hisin, hdsc] at h
  simp only [Option.bind_some, Option.some_bind, pure] at h
  rw [padBytes_exact _ h2] at h
  cases h
  simp only [ShareCommon.write, List.append_assoc, Option.bind_eq_bind,
    readU8_writeU8 _ h1, Option.some_bind, readBytesP_exact _ _ h2,
    readU64_writeU64 _ h3, ReadFixedChar_append _ _ h4,
    ReadFixedChar_append _ _ h5,
    ReadVarChar_append_last _ _ h6 (by omega), pure]

set_option maxHeartbeats 1600000 in
theorem ticketAdmission_serialize_write (m : TicketAdmission)
    (hm : m.Canonical) (bs : List Nat) (h : m.serialize = some bs) :
    TicketAdmission.write bs = some m := by
  obtain ⟨h1, h2, h3, h4, h5, h6, h7, h8, h9, h10, h11, h12⟩ := hm
  have hadt : WriteFixedChar m.AdmissionType 3 = some m.AdmissionType := by
    rw [WriteFixedChar, if_neg (by omega), h4, Nat.sub_self,
      List.replicate_zero, List.append_nil]
  have hven : WriteVarChar m.Venue 255 =
      some (leBytes (varLenWidth 255) m.Venue.length ++ m.Venue) := by
    rw [WriteVarChar, if_neg (by omega)]
  have hcls : WriteVarChar m.Class 255 =
      some (leBytes (varLenWidth 255) m.Class.length ++ m.Class) := by
    rw [WriteVarChar, if_neg (by omega)]
  have harea : WriteVarChar m.Area 255 =
      some (leBytes (varLenWidth 255) m.Area.length ++ m.Area) := by
    rw [WriteVarChar, if_neg (by omega)]
  have hseat : WriteVarChar m.Seat 255 =
      some (leBytes (varLenWidth 255) m.Seat.length ++ m.Seat) := by
    rw [WriteVarChar, if_neg (by omega)]
  have hdsc : WriteVarChar m.Description 16 =
      some (leBytes (varLenWidth 16) m.Description.length ++ m.Description) := by
    rw [WriteVarChar, if_neg (by omega)]
  rw [TicketAdmission.serialize, hadt, hven, hcls, harea, hseat, hdsc] at h
  simp only [Option.bind_some, Option.some_bind, pure] at h
  rw [padBytes_exact _ h2, padBytes_exact _ h3] at h
  cases h
  rw [TicketAdmission.write]
  simp only [List.append_assoc, Option.bind_eq_bind]
  simp only [readU8_writeU8 _ h1, Option.some_bind, readBytesP_exact _ _ h2,
    readBytesP_exact _ _ h3, ReadFixedChar_append _ _ h4]
  simp only [Option.some_bind, ReadVarChar_append _ _ h5 (by omega),
    ReadVarChar_append _ _ h6 (by omega), ReadVarChar_append _ _ h7 (by omega),
    ReadVarChar_append _ _ h8 (by omega), readU64_writeU64 _ h9,
    readU64_writeU64 _ h10, readU64_writeU64 _ h11,
    ReadVarChar_append_last _ _ h12 (by omega), pure]

/-- The multi-PKH hash-collection loop always returns ErrBadScriptHashLength:
when fewer than scriptHashLength bytes remain it errors, and otherwise it
recurses on a strictly shorter list, so no run exits successfully — the
success return after the source loop is unreachable. -/
theorem parseMultiPKHHashes_error (b : List Nat) (acc : List (List Nat)) :
    parseMultiPKHHashes acc b = .error .badScriptHashLength := by
  suffices h : ∀ (n : Nat) (b : List Nat), b.length ≤ n →
      ∀ acc, parseMultiPKHHashes acc b = .error .badScriptHashLength from
    h b.length b le_rfl acc
  intro n
  induction n with
  | zero =>
    intro b hb acc
    rw [parseMultiPKHHashes]
    have hlt : b.length < scriptHashLength := by
      simp only [scriptHashLength]
      omega
    simp [hlt]
  | succ n ih =>
    intro b hb acc
    rw [parseMultiPKHHashes]
    by_cases h : b.length < scriptHashLength
    · simp [h]
    · simp only [h, if_false]
      exact ih _ (by simp only [List.length_drop, scriptHashLength] at *; omega) _

/-- C2 counterexample: the specification's request set contains Message and
AddressChange and its response set contains Message, but the inspector
classifies none of them: IsIncomingMessageType is false on an AddressChange
and on a Message transaction, and IsOutgoingMessageType is false on a Message
transaction. -/
theorem inspector_classification_counterexample :
    specRequestSet .addressChange = true ∧
    InspectorTransaction.IsIncomingMessageType ⟨some .addressChange⟩ = false ∧
    specRequestSet .message = true ∧
    InspectorTransaction.IsIncomingMessageType ⟨some .message⟩ = false ∧
    specResponseSet .message = true ∧
    InspectorTransaction.IsOutgoingMessageType ⟨some .message⟩ = false := by
  decide

/-- C2 (amended): the inspector classifies a tokenized transaction as a
request exactly when its action code is in the set ContractOffer,
ContractAmendment, AssetDefinition, AssetModification, Transfer, Proposal,
BallotCast, Order, and as a response exactly when its action code is in the
set AssetCreation, ContractFormation, Settlement, Vote, BallotCounted,
Result, Freeze, Thaw, Confiscation, Reconciliation, Rejection;
IsIncomingMessageType and IsOutgoingMessageType return true precisely on
those sets (Message and AddressChange are in neither). -/
theorem inspector_classification (itx : InspectorTransaction) :
    (itx.IsIncomingMessageType = true ↔
      ∃ c, itx.msgProto = some c ∧
        c ∈ [ActionCode.contractOffer, .contractAmendment, .assetDefinition,
          .assetModification, .transfer, .proposal, .ballotCast, .order]) ∧
    (itx.IsOutgoingMessageType = true ↔
      ∃ c, itx.msgProto = some c ∧
        c ∈ [ActionCode.assetCreation, .contractFormation, .settlement,
          .vote, .ballotCounted, .result, .freeze, .thaw, .confiscation,
          .reconciliation, .rejection]) := by
  obtain ⟨mp⟩ := itx
  rcases mp with _ | c
  · decide
  · cases c <;> decide

/-- C9: contract.Update changes only the fields whose update pointers are
non-nil plus the UpdatedAt timestamp; every field of the stored contract
whose update pointer is nil is unchanged, and the fields with no update
pointer at all (ID, CreatedAt, AssetCodes, MovedTo, MasterAddress) are always
unchanged. -/
theorem contractUpdate_frame (c : StateContract) (upd : UpdateContract)
    (now : Nat) :
    ((contractUpdate c upd now).UpdatedAt = now) ∧
    ((contractUpdate c upd now).ID = c.ID) ∧
    ((contractUpdate c upd now).CreatedAt = c.CreatedAt) ∧
    ((contractUpdate c upd now).AssetCodes = c.AssetCodes) ∧
    ((contractUpdate c upd now).MovedTo = c.MovedTo) ∧
    ((contractUpdate c upd now).MasterAddress = c.MasterAddress) ∧
    (upd.Revision = none → (contractUpdate c upd now).Revision = c.Revision) ∧
    (upd.Timestamp = none → (contractUpdate c upd now).Timestamp = c.Timestamp) ∧
    (upd.IssuerPKH = none → (contractUpdate c upd now).IssuerPKH = c.IssuerPKH) ∧
    (upd.OperatorPKH = none → (contractUpdate c upd now).OperatorPKH = c.OperatorPKH) ∧
    (upd.ContractName = none → (contractUpdate c upd now).ContractName = c.ContractName) ∧
    (upd.ContractType = none → (contractUpdate c upd now).ContractType = c.ContractType) ∧
    (upd.BodyOfAgreementType = none → (contractUpdate c upd now).BodyOfAgreementType = c.BodyOfAgreementType) ∧
    (upd.BodyOfAgreement = none → (contractUpdate c upd now).BodyOfAgreement = c.BodyOfAgreement) ∧
    (upd.SupportingDocsFileType = none → (contractUpdate c upd now).SupportingDocsFileType = c.SupportingDocsFileType) ∧
    (upd.SupportingDocs = none → (contractUpdate c upd now).SupportingDocs = c.SupportingDocs) ∧
    (upd.GoverningLaw = none → (contractUpdate c upd now).GoverningLaw = c.GoverningLaw) ∧
    (upd.Jurisdiction = none → (contractUpdate c upd now).Jurisdiction = c.Jurisdiction) ∧
    (upd.ContractExpiration = none → (contractUpdate c upd now).ContractExpiration = c.ContractExpiration) ∧
    (upd.ContractURI = none → (contractUpdate c upd now).ContractURI = c.ContractURI) ∧
    (upd.Issuer = none → (contractUpdate c upd now).Issuer = c.Issuer) ∧
    (upd.IssuerLogoURL = none → (contractUpdate c upd now).IssuerLogoURL = c.IssuerLogoURL) ∧
    (upd.ContractOperator = none → (contractUpdate c upd now).ContractOperator = c.ContractOperator) ∧
    (upd.ContractAuthFlags = none → (contractUpdate c upd now).ContractAuthFlags = c.ContractAuthFlags) ∧
    (upd.ContractFee = none → (contractUpdate c upd now).ContractFee = c.ContractFee) ∧
    (upd.VotingSystems = none → (contractUpdate c upd now).VotingSystems = c.VotingSystems) ∧
    (upd.RestrictedQtyAssets = none → (contractUpdate c upd now).RestrictedQtyAssets = c.RestrictedQtyAssets) ∧
    (upd.IssuerProposal = none → (contractUpdate c upd now).IssuerProposal = c.IssuerProposal) ∧
    (upd.HolderProposal = none → (contractUpdate c upd now).HolderProposal = c.HolderProposal) ∧
    (upd.Oracles = none → (contractUpdate c upd now).Oracles = c.Oracles) ∧
    (upd.FreezePeriod = none → (contractUpdate c upd now).FreezePeriod = c.FreezePeriod) := by
  refine ⟨rfl, rfl, rfl, rfl, rfl, rfl, ?_, ?_, ?_, ?_, ?_, ?_, ?_, ?_, ?_,
    ?_, ?_, ?_, ?_, ?_, ?_, ?_, ?_, ?_, ?_, ?_, ?_, ?_, ?_, ?_, ?_⟩ <;>
    (intro h; simp [contractUpdate, h])

/-- C9 witness: applying the frame theorem to a concrete contract with a
single non-nil update pointer. -/
theorem contractUpdate_frame_witness :
    (contractUpdate { IssuerPKH := 7 } { ContractFee := some 44 } 5).IssuerPKH = 7 ∧
    (contractUpdate { IssuerPKH := 7 } { ContractFee := some 44 } 5).UpdatedAt = 5 := by
  have H := contractUpdate_frame { IssuerPKH := 7 } { ContractFee := some 44 } 5
  exact ⟨H.2.2.2.2.2.2.2.2.1 rfl, H.1⟩

/-- C8: for every multi-PKH address, DecodeAddress applied to the address's
Base58 string form fails with ErrBadScriptHashLength instead of returning the
address: the checksum layer succeeds (for any Base58 and double SHA-256 with
the stated properties), and decodeAddressBytes then runs the hash-collection
loop, which cannot terminate successfully. -/
theorem multiPKH_decode_encode_fails (base58 : List Nat → String)
    (base58Decode : String → List Nat) (dsha : List Nat → List Nat)
    (a : AddressMultiPKH)
    (hrt : base58Decode (base58 ((Address.multiPKH a).bytes ++
        (dsha (Address.multiPKH a).bytes).take 4)) =
      (Address.multiPKH a).bytes ++ (dsha (Address.multiPKH a).bytes).take 4)
    (hlen : 4 ≤ (dsha (Address.multiPKH a).bytes).length) :
    DecodeAddress base58Decode dsha
      ((Address.multiPKH a).toBase58 base58 dsha) =
      .error .badScriptHashLength := by
  have hB : (Address.multiPKH a).bytes =
      (match a.net with
       | .mainNet => addressTypeMainMultiPKH
       | _ => addressTypeTestMultiPKH) :: (u16le a.required ++ a.pkhs.flatten) := rfl
  set B := (Address.multiPKH a).bytes with hBdef
  set C := (dsha B).take 4 with hCdef
  have hClen : C.length = 4 := by
    simp only [hCdef, List.length_take]
    omega
  have hBlen : B.length = 3 + a.pkhs.flatten.length := by
    simp [hB, u16le]
    omega
  have hok : decodeAddress base58Decode dsha
      ((Address.multiPKH a).toBase58 base58 dsha) = .ok B := by
    simp only [Address.toBase58, encodeAddress, decodeAddress, ← hBdef, ← hCdef, hrt]
    have hlen2 : (B ++ C).length = B.length + 4 := by
      simp [hClen]
    have hnotlt : ¬ (B ++ C).length < 5 := by
      rw [hlen2]
      omega
    have h44 : B.length + 4 - 4 = B.length := by omega
    simp only [hnotlt, if_false, hlen2, h44]
    have htake : (B ++ C).take B.length = B := by
      rw [List.take_left]
    have hdrop : (B ++ C).drop B.length = C := by
      rw [List.drop_left]
    simp [htake, hdrop, hCdef]
    omega
  rw [DecodeAddress, hok]
  obtain ⟨req, pkhs, net⟩ := a
  cases net <;>
    simp [decodeAddressBytes, hB, u16le, addressTypeMainPKH, addressTypeMainSH,
      addressTypeMainMultiPKH, addressTypeMainRPH, addressTypeTestPKH,
      addressTypeTestSH, addressTypeTestMultiPKH, addressTypeTestRPH,
      parseMultiPKHHashes_error]

/-- The outputs component of the pre-image never accesses out of range: the
SigHashSingle branch that reads tx.TxOut at the input index is guarded by
index < len(tx.TxOut), so the component always produces a value. -/
theorem sigHashOutputsComponent_isSome (dsha : List Nat → List Nat)
    (serTxOut : TxOut → List Nat) (tx : MsgTx) (index : Nat) (hashType : Nat) :
    (sigHashOutputsComponent dsha serTxOut tx index hashType).isSome := by
  rw [sigHashOutputsComponent]
  split_ifs with h1 h2
  · rfl
  · rw [List.get?_eq_get h2.2]
    rfl
  · rfl

/-- C10: signatureHash returns nil (none) for every input index at or beyond
the number of transaction inputs instead of aborting, and for every in-range
index it produces a digest with no out-of-bounds access: the guarded
SigHashSingle output branch included, every slice access stays in range, so
the result is some digest. -/
theorem signatureHash_bounds (dsha : List Nat → List Nat)
    (serTxOut : TxOut → List Nat) (wvb : List Nat → List Nat) (tx : MsgTx)
    (index : Nat) (lockScript : List Nat) (value hashType : Nat) :
    (tx.txIn.length ≤ index →
      signatureHash dsha serTxOut wvb tx index lockScript value hashType = none) ∧
    (index < tx.txIn.length →
      (signatureHash dsha serTxOut wvb tx index lockScript value hashType).isSome) := by
  constructor
  · intro h
    simp [signatureHash, h]
  · intro h
    have hne : ¬ tx.txIn.length ≤ index := by omega
    have hget : tx.txIn[index]? = some tx.txIn[index] :=
      List.getElem?_eq_getElem h
    have hp7 := sigHashOutputsComponent_isSome dsha serTxOut tx index hashType
    obtain ⟨p7, hp7eq⟩ := Option.isSome_iff_exists.mp hp7
    rw [signatureHash]
    simp [hne, hget, hp7eq]

/-- C10 witness: the bounds theorem applied to a one-input, no-output
transaction at the in-range index zero and the out-of-range index five, in
SigHashSingle mode where the guarded branch is reached. -/
theorem signatureHash_bounds_witness :
    (signatureHash (fun l => l) (fun _ => []) (fun l => l)
      ⟨1, [⟨⟨[], 0⟩, 0⟩], [], 0⟩ 0 [] 0 SigHashSingle).isSome ∧
    signatureHash (fun l => l) (fun _ => []) (fun l => l)
      ⟨1, [⟨⟨[], 0⟩, 0⟩], [], 0⟩ 5 [] 0 SigHashSingle = none := by
  constructor
  · exact (signatureHash_bounds (fun l => l) (fun _ => []) (fun l => l)
      ⟨1, [⟨⟨[], 0⟩, 0⟩], [], 0⟩ 0 [] 0 SigHashSingle).2 (by decide)
  · exact (signatureHash_bounds (fun l => l) (fun _ => []) (fun l => l)
      ⟨1, [⟨⟨[], 0⟩, 0⟩], [], 0⟩ 5 [] 0 SigHashSingle).1 (by decide)

/-- C8 witness: the parameterized theorem applied at a concrete one-hash
multi-PKH address with stand-in Base58 and hash functions satisfying its
hypotheses. -/
theorem multiPKH_decode_encode_fails_witness :
    DecodeAddress b58dec0 dsha0
      ((Address.multiPKH mpkh0).toBase58 (fun _ => "") dsha0) =
      .error .badScriptHashLength := by
  exact multiPKH_decode_encode_fails (fun _ => "") b58dec0 dsha0 mpkh0
    (by decide) (by decide)

set_option maxHeartbeats 1600000 in
/-- C5: with the preceding checks of Asset.DefinitionRequest passing, a
non-zero asset-count limit already reached (or exceeded) by the asset-code
list produces a ContractFixedQuantity rejection and no asset creation, while
a zero limit means the count check never rejects: CanHaveMoreAssets is true
and no path of the handler produces a ContractFixedQuantity rejection. -/
theorem assetDefinition_count_limit (env : DefEnv) (ct : ContractState)
    (itx : HItx) (msg : AssetDefinitionMsg) (rest : List Nat)
    (h0 : itx.rejectCode = .ok)
    (h1 : ct.MovedTo = none)
    (h2 : ct.FreezePeriod ≤ env.now)
    (h3 : ¬ (ct.ContractExpiration ≠ 0 ∧ ct.ContractExpiration < env.now))
    (h4 : env.permissionsOk = true)
    (h5 : itx.inputs = ct.AdministrationAddress :: rest)
    (h6 : env.assetLookup = .notFound) :
    (ct.RestrictedQtyAssets ≠ 0 →
      ct.RestrictedQtyAssets ≤ ct.AssetCodes.length →
      AssetDefinitionRequest env (some ct) itx msg =
        .reject .contractFixedQuantity) ∧
    (ct.RestrictedQtyAssets = 0 →
      ct.CanHaveMoreAssets = true ∧
      AssetDefinitionRequest env (some ct) itx msg ≠
        .reject .contractFixedQuantity) := by
  have h2n : ¬ env.now < ct.FreezePeriod := Nat.not_lt.mpr h2
  constructor
  · intro hn hle
    have hch : ct.CanHaveMoreAssets = false := by
      rw [ContractState.CanHaveMoreAssets, if_neg hn]
      exact decide_eq_false (by omega)
    rw [AssetDefinitionRequest]
    repeat' split
    all_goals simp_all
  · intro hz
    have hch : ct.CanHaveMoreAssets = true := by
      simp [ContractState.CanHaveMoreAssets, hz]
    refine ⟨hch, ?_⟩
    intro hcontra
    rw [AssetDefinitionRequest] at hcontra
    repeat' split at hcontra
    all_goals try (cases hcontra)
    all_goals simp_all

/-- C5 witness: the count-limit theorem applied to a contract with limit one
and one asset already, and to a contract with a zero limit. -/
theorem assetDefinition_count_limit_witness :
    AssetDefinitionRequest {} (some { RestrictedQtyAssets := 1, AssetCodes := [4] })
      { inputs := [0] } {} = .reject .contractFixedQuantity ∧
    ContractState.CanHaveMoreAssets { RestrictedQtyAssets := 0, AssetCodes := [4] } = true := by
  constructor
  · exact (assetDefinition_count_limit {} { RestrictedQtyAssets := 1, AssetCodes := [4] }
      { inputs := [0] } {} [] rfl rfl (by decide) (by decide) rfl rfl rfl).1
      (by decide) (by decide)
  · exact ((assetDefinition_count_limit {} { RestrictedQtyAssets := 0, AssetCodes := [4] }
      { inputs := [0] } {} [] rfl rfl (by decide) (by decide) rfl rfl rfl).2 rfl).1

/-- C6: with the preceding checks of Asset.ModificationRequest passing and
the applied amendments yielding a changed TokenQty, a decrease attaches a
pending debit of the difference to the administration holding and rejects
InsufficientQuantity exactly when the holding cannot cover it (finalized
balance minus pending debits below the difference), and an increase attaches
a pending deposit of the difference. -/
theorem assetModification_tokenQty (env : ModEnv) (ct : ContractState)
    (itx : HItx) (msg : AssetModificationMsg) (sender : Nat) (rest : List Nat)
    (as : AssetState) (h : Holding) (prp : Bool) (ptype vsys : Nat)
    (ac : AssetCreation)
    (h0 : itx.rejectCode = .ok)
    (h1 : ct.MovedTo = none)
    (h2 : itx.inputs = sender :: rest)
    (h3 : ct.IsOperator sender = true)
    (h4 : env.assetLookup = .found as)
    (h5 : as.Revision = msg.AssetRevision)
    (h6 : checkModificationProposal env msg = .proceed prp ptype vsys)
    (h7 : env.applyAmendments
        { AssetCode := msg.AssetCode, AssetRevision := as.Revision + 1,
          Timestamp := env.now, TokenQty := as.TokenQty }
        ct.VotingSystems msg.Amendments prp ptype vsys = .ok ac)
    (h8 : env.adminHolding = some h)
    (h9 : env.addTxOk = true) :
    (ac.TokenQty < as.TokenQty →
      (h.FinalizedBalance - h.pendingDebitTotal < as.TokenQty - ac.TokenQty →
        AssetModificationRequest env (some ct) itx msg =
          .reject .insufficientQuantity) ∧
      (as.TokenQty - ac.TokenQty ≤ h.FinalizedBalance - h.pendingDebitTotal →
        AssetModificationRequest env (some ct) itx msg =
          .respond ac (some { h with
            PendingDebits := (itx.hash, as.TokenQty - ac.TokenQty) ::
              h.PendingDebits }))) ∧
    (as.TokenQty < ac.TokenQty →
      AssetModificationRequest env (some ct) itx msg =
        .respond ac (some { h with
          PendingCredits := (itx.hash, ac.TokenQty - as.TokenQty) ::
            h.PendingCredits })) := by
  constructor
  · intro hlt
    have hne : ac.TokenQty ≠ as.TokenQty := by omega
    constructor
    · intro hinsuf
      simp [AssetModificationRequest, h0, h1, h2, h3, h4, h5.symm, h6, h7, h8,
        h9, hne, hlt, holdingsAddDebit, hinsuf]
    · intro hsuf
      have hnot : ¬ (h.FinalizedBalance - h.pendingDebitTotal <
          as.TokenQty - ac.TokenQty) := by omega
      simp [AssetModificationRequest, h0, h1, h2, h3, h4, h5.symm, h6, h7, h8,
        h9, hne, hlt, holdingsAddDebit, hnot]
  · intro hgt
    have hne : ac.TokenQty ≠ as.TokenQty := by omega
    have hnlt : ¬ ac.TokenQty < as.TokenQty := by omega
    simp [AssetModificationRequest, h0, h1, h2, h3, h4, h5.symm, h6, h7, h8,
      h9, hne, hnlt, holdingsAddDeposit]

/-- C6 witness: the token-quantity theorem applied to a concrete decrease
from ten to three tokens against an administration holding of ten, yielding
the response with the pending debit of seven attached. -/
theorem assetModification_tokenQty_witness :
    AssetModificationRequest
      { assetLookup := .found ⟨0, 10⟩,
        adminHolding := some ⟨10, [], []⟩,
        applyAmendments := fun ac _ _ _ _ _ => .ok { ac with TokenQty := 3 } }
      (some { AdministrationAddress := 9 }) { hash := 77, inputs := [9] } {} =
      .respond { AssetCode := 0, AssetRevision := 1, Timestamp := 0, TokenQty := 3 }
        (some ⟨10, [(77, 7)], []⟩) := by
  exact ((assetModification_tokenQty
    { assetLookup := .found ⟨0, 10⟩,
      adminHolding := some ⟨10, [], []⟩,
      applyAmendments := fun ac _ _ _ _ _ => .ok { ac with TokenQty := 3 } }
    { AdministrationAddress := 9 } { hash := 77, inputs := [9] } {} 9 []
    ⟨0, 10⟩ ⟨10, [], []⟩
    false 0 0 { AssetCode := 0, AssetRevision := 1, Timestamp := 0, TokenQty := 3 }
    rfl rfl rfl (by decide) rfl rfl rfl rfl rfl rfl).1 (by decide)).2 (by decide)

/-- C7: with a valid codec result, Contract.OfferRequest rejects with
ContractExists whenever a contract record already exists at the agent's
address, and every ContractFormation response it produces has
ContractRevision zero and the server timestamp. -/
theorem contractOffer_formation (env : OfferEnv) (itx : HItx)
    (msg : ContractOfferMsg) (h0 : itx.rejectCode = .ok) :
    (∀ u, env.contractLookup = .found u →
      ContractOfferRequest env itx msg = .reject .contractExists) ∧
    (∀ cf, ContractOfferRequest env itx msg = .respond cf →
      cf.ContractRevision = 0 ∧ cf.Timestamp = env.now) := by
  constructor
  · intro u hu
    simp [ContractOfferRequest, h0, hu]
  · intro cf hcf
    rw [ContractOfferRequest] at hcf
    repeat' split at hcf
    all_goals try (cases hcf)
    all_goals exact ⟨rfl, rfl⟩

/-- C7 witness: the offer theorem applied once with an existing contract and
once on the accepting path. -/
theorem contractOffer_formation_witness :
    ContractOfferRequest { contractLookup := .found () } { inputs := [3] } {} =
      .reject .contractExists ∧
    (ContractFormationMsg.ContractRevision
        { ContractRevision := 0, Timestamp := 0, AdminAddress := 3,
          OperatorAddress := none } = 0 ∧
      ContractFormationMsg.Timestamp
        { ContractRevision := 0, Timestamp := 0, AdminAddress := 3,
          OperatorAddress := none } = 0) := by
  constructor
  · exact (contractOffer_formation { contractLookup := .found () }
      { inputs := [3] } {} rfl).1 () rfl
  · exact (contractOffer_formation {} { inputs := [3] } {} rfl).2
      { ContractRevision := 0, Timestamp := 0, AdminAddress := 3,
        OperatorAddress := none } (by decide)

/-- The freeze target loop only produces the codes its checks name, never
ContractMoved. -/
theorem freezeTargetsLoop_ne_moved (env : EnfEnv) (as : EnfAsset)
    (targets : List TargetAddress) (i : Nat) (e : RejectCode)
    (h : freezeTargetsLoop env as targets i = .error e) :
    e ≠ .contractMoved := by
  induction targets generalizing i with
  | nil =>
    rw [freezeTargetsLoop] at h
    cases h
  | cons t rest ih =>
    rw [freezeTargetsLoop] at h
    split_ifs at h
    all_goals try (cases h; decide)
    split at h
    · cases h
      exact ih _ (by assumption)
    · cases h

/-- The confiscation target loop only produces the codes its checks name,
never ContractMoved. -/
theorem confiscateTargetsLoop_ne_moved (env : EnfEnv) (as : EnfAsset)
    (targets : List TargetAddress) (i : Nat) (e : RejectCode)
    (h : confiscateTargetsLoop env as targets i = .error e) :
    e ≠ .contractMoved := by
  induction targets generalizing i with
  | nil =>
    rw [confiscateTargetsLoop] at h
    cases h
  | cons t rest ih =>
    rw [confiscateTargetsLoop] at h
    split_ifs at h
    all_goals try (cases h; decide)
    split at h
    · cases h
      exact ih _ (by assumption)
    · cases h

/-- The reconciliation target loop only produces the codes its checks name,
never ContractMoved. -/
theorem reconcileTargetsLoop_ne_moved (env : EnfEnv) (as : EnfAsset)
    (targets : List TargetAddress) (i : Nat) (e : RejectCode)
    (h : reconcileTargetsLoop env as targets i = .error e) :
    e ≠ .contractMoved := by
  induction targets generalizing i with
  | nil =>
    rw [reconcileTargetsLoop] at h
    cases h
  | cons t rest ih =>
    rw [reconcileTargetsLoop] at h
    split_ifs at h
    all_goals try (cases h; decide)
    split at h
    · cases h
      exact ih _ (by assumption)
    · cases h

/-- OrderFreezeRequest never produces a ContractMoved rejection: the handler
contains no moved-to check. -/
theorem OrderFreezeRequest_ne_moved (env : EnfEnv) (ct : StateContract)
    (msg : OrderMsg) :
    OrderFreezeRequest env ct msg ≠ .reject .contractMoved := by
  intro hcontra
  rw [OrderFreezeRequest] at hcontra
  repeat' split at hcontra
  all_goals cases hcontra
  all_goals exact freezeTargetsLoop_ne_moved _ _ _ _ _ (by assumption) rfl

/-- OrderThawRequest never produces a ContractMoved rejection. -/
theorem OrderThawRequest_ne_moved (env : EnfEnv) (ct : StateContract)
    (itx : HItx) (msg : OrderMsg) :
    OrderThawRequest env ct itx msg ≠ .reject .contractMoved := by
  intro hcontra
  rw [OrderThawRequest] at hcontra
  repeat' split at hcontra
  all_goals cases hcontra

/-- OrderConfiscateRequest never produces a ContractMoved rejection. -/
theorem OrderConfiscateRequest_ne_moved (env : EnfEnv) (ct : StateContract)
    (msg : OrderMsg) :
    OrderConfiscateRequest env ct msg ≠ .reject .contractMoved := by
  intro hcontra
  rw [OrderConfiscateRequest] at hcontra
  repeat' split at hcontra
  all_goals cases hcontra
  all_goals exact confiscateTargetsLoop_ne_moved _ _ _ _ _ (by assumption) rfl

/-- OrderReconciliationRequest never produces a ContractMoved rejection. -/
theorem OrderReconciliationRequest_ne_moved (env : EnfEnv) (ct : StateContract)
    (msg : OrderMsg) :
    OrderReconciliationRequest env ct msg ≠ .reject .contractMoved := by
  intro hcontra
  rw [OrderReconciliationRequest] at hcontra
  repeat' split at hcontra
  all_goals cases hcontra
  all_goals exact reconcileTargetsLoop_ne_moved _ _ _ _ _ (by assumption) rfl

/-- C1 (amended): the request handlers that perform the moved-to check
(Asset Definition, Asset Modification, Contract Amendment) reject with
ContractMoved whenever the stored moved-to field is non-empty — regardless of
the sender, master address included, and with no state change attached to the
rejection — while Enforcement.OrderRequest performs no moved-to check at all
and can never produce a ContractMoved rejection on any input. -/
theorem movedContract_rejections :
    (∀ (env : DefEnv) (ct : ContractState) (itx : HItx)
      (msg : AssetDefinitionMsg), itx.rejectCode = .ok → ct.MovedTo.isSome →
      AssetDefinitionRequest env (some ct) itx msg = .reject .contractMoved) ∧
    (∀ (env : ModEnv) (ct : ContractState) (itx : HItx)
      (msg : AssetModificationMsg), itx.rejectCode = .ok → ct.MovedTo.isSome →
      AssetModificationRequest env (some ct) itx msg = .reject .contractMoved) ∧
    (∀ (tailf : ContractState → HItx → AmendResult) (ct : ContractState)
      (itx : HItx) (rev : Nat), itx.rejectCode = .ok → ct.MovedTo.isSome →
      ContractAmendmentRequest tailf (some ct) itx rev =
        .reject .contractMoved) ∧
    (∀ (env : EnfEnv) (ct? : Option StateContract) (itx : HItx)
      (msg : OrderMsg),
      EnforcementOrderRequest env ct? itx msg ≠ .reject .contractMoved) := by
  refine ⟨?_, ?_, ?_, ?_⟩
  · intro env ct itx msg h0 hm
    simp [AssetDefinitionRequest, h0, hm]
  · intro env ct itx msg h0 hm
    simp [AssetModificationRequest, h0, hm]
  · intro tailf ct itx rev h0 hm
    simp [ContractAmendmentRequest, h0, hm]
  · intro env ct? itx msg hcontra
    rw [EnforcementOrderRequest.eq_def] at hcontra
    repeat' split at hcontra
    all_goals first
      | (cases hcontra)
      | exact OrderFreezeRequest_ne_moved _ _ _ hcontra
      | exact OrderThawRequest_ne_moved _ _ _ _ hcontra
      | exact OrderConfiscateRequest_ne_moved _ _ _ hcontra
      | exact OrderReconciliationRequest_ne_moved _ _ _ hcontra

/-- C1 witness: the amended theorem applied to concrete moved contracts for
the three checking handlers and to a concrete Order for the enforcement
clause. -/
theorem movedContract_rejections_witness :
    AssetDefinitionRequest {} (some { MovedTo := some 99 }) {} {} =
      .reject .contractMoved ∧
    AssetModificationRequest {} (some { MovedTo := some 99 }) {} {} =
      .reject .contractMoved ∧
    ContractAmendmentRequest (fun _ _ => .fatal) (some { MovedTo := some 99 })
      {} 0 = .reject .contractMoved ∧
    EnforcementOrderRequest {} (some { MovedTo := some 99, IssuerPKH := 7 })
      { inputs := [7] } { ComplianceAction := .freezeAction } ≠
      .reject .contractMoved := by
  refine ⟨?_, ?_, ?_, ?_⟩
  · exact movedContract_rejections.1 {} { MovedTo := some 99 } {} {} rfl rfl
  · exact movedContract_rejections.2.1 {} { MovedTo := some 99 } {} {} rfl rfl
  · exact movedContract_rejections.2.2.1 (fun _ _ => .fatal)
      { MovedTo := some 99 } {} 0 rfl rfl
  · exact movedContract_rejections.2.2.2 {}
      (some { MovedTo := some 99, IssuerPKH := 7 }) { inputs := [7] }
      { ComplianceAction := .freezeAction }

/-- C1 counterexample: on a contract whose moved-to field is set, an Order
enforcement request from the issuer (not the recorded master address)
proceeds into the freeze handler and is rejected as Malformed for its empty
target list — not with ContractMoved — and an AssetDefinition request sent by
the recorded master address on a moved contract is still rejected with
ContractMoved, so neither half of the claim holds as stated. -/
theorem movedContract_counterexample :
    (StateContract.MovedTo movedOldContract = some 99 ∧
      EnforcementOrderRequest {} (some movedOldContract) { inputs := [7] }
        { ComplianceAction := .freezeAction } = .reject .msgMalformed) ∧
    (ContractState.MasterAddress movedMasterContract = some 50 ∧
      AssetDefinitionRequest {} (some movedMasterContract) { inputs := [50] }
        {} = .reject .contractMoved) := by
  refine ⟨⟨rfl, ?_⟩, ⟨rfl, ?_⟩⟩ <;> decide

/-- C3: evaluation of the Order pipeline at an accepted Reconciliation order
with one target (balance ten, quantity three) and one bitcoin dispersion of
five satoshis naming listed target zero. The response reduces the holding as
claimed (quantity row balance seven), but the target's output keeps bitcoin
value zero: the dispersion guard at enforcement.go line 466 reads >= where
only < would reach the guarded update, so in-range dispersions are skipped;
and the same order with dispersion index one, which is out of range, drives
the guarded body into an out-of-range slice access (the Go panic). -/
theorem reconciliation_dispersion_eval :
    EnforcementOrderRequest { assetLookup := .found reconAsset }
      (some { IssuerPKH := 7 }) { inputs := [7] } reconOrder =
      .reconciliationResp [⟨0, 7⟩] [(5, 0)] ∧
    EnforcementOrderRequest { assetLookup := .found reconAsset }
      (some { IssuerPKH := 7 }) { inputs := [7] }
      { reconOrder with BitcoinDispersions := [⟨1, 5⟩] } = .panic := by
  constructor
  · decide
  · decide

/-- C4: for every payload value of each of the six defined asset types
(COU, CUR, LOY, MEM, SHC, TIC) whose fields fit their wire widths
(Canonical), decoding the serialized bytes recovers the exact value, and
re-serializing the decoded value is byte-exact. (Amended: the claim over
ALL values fails, because the encoder zero-pads a short TradingRestriction
or AgeRestriction field to 5 bytes, so decoding returns the padded value.) -/
theorem assetPayload_roundtrip :
    (∀ (m : Coupon) (bs : List Nat), m.Canonical → m.serialize = some bs →
      Coupon.write bs = some m ∧
      (Coupon.write bs).bind Coupon.serialize = some bs) ∧
    (∀ (m : CurrencyAsset) (bs : List Nat), m.Canonical → m.serialize = some bs →
      CurrencyAsset.write bs = some m ∧
      (CurrencyAsset.write bs).bind CurrencyAsset.serialize = some bs) ∧
    (∀ (m : LoyaltyPoints) (bs : List Nat), m.Canonical → m.serialize = some bs →
      LoyaltyPoints.write bs = some m ∧
      (LoyaltyPoints.write bs).bind LoyaltyPoints.serialize = some bs) ∧
    (∀ (m : MembershipAsset) (bs : List Nat), m.Canonical → m.serialize = some bs →
      MembershipAsset.write bs = some m ∧
      (MembershipAsset.write bs).bind MembershipAsset.serialize = some bs) ∧
    (∀ (m : ShareCommon) (bs : List Nat), m.Canonical → m.serialize = some bs →
      ShareCommon.write bs = some m ∧
      (ShareCommon.write bs).bind ShareCommon.serialize = some bs) ∧
    (∀ (m : TicketAdmission) (bs : List Nat), m.Canonical → m.serialize = some bs →
      TicketAdmission.write bs = some m ∧
      (TicketAdmission.write bs).bind TicketAdmission.serialize = some bs) := by
  refine ⟨?_, ?_, ?_, ?_, ?_, ?_⟩
  · intro m bs hc h
    have hw := coupon_serialize_write m hc bs h
    exact ⟨hw, by rw [hw, Option.some_bind, h]⟩
  · intro m bs hc h
    have hw := currencyAsset_serialize_write m hc bs h
    exact ⟨hw, by rw [hw, Option.some_bind, h]⟩
  · intro m bs hc h
    have hw := loyaltyPoints_serialize_write m hc bs h
    exact ⟨hw, by rw [hw, Option.some_bind, h]⟩
  · intro m bs hc h
    have hw := membershipAsset_serialize_write m hc bs h
    exact ⟨hw, by rw [hw, Option.some_bind, h]⟩
  · intro m bs hc h
    have hw := shareCommon_serialize_write m hc bs h
    exact ⟨hw, by rw [hw, Option.some_bind, h]⟩
  · intro m bs hc h
    have hw := ticketAdmission_serialize_write m hc bs h
    exact ⟨hw, by rw [hw, Option.some_bind, h]⟩

/-- C4 counterexample to the unrestricted round-trip: a Coupon whose
TradingRestriction is empty serializes (the encoder pads it to 5 zero
bytes), but decoding returns the padded value, not the original. -/
theorem assetPayload_roundtrip_counterexample :
    couponPad.serialize.bind Coupon.write ≠ some couponPad := by decide

/-- Witness for C4 at a concrete canonical Coupon. -/
theorem assetPayload_roundtrip_witness :
    Coupon.write (couponW.serialize.getD []) = some couponW ∧
    (Coupon.write (couponW.serialize.getD [])).bind Coupon.serialize =
      some (couponW.serialize.getD []) :=
  assetPayload_roundtrip.1 couponW (couponW.serialize.getD [])
    (by decide) (by decide)

end SmartContract
